import Mathlib

/-!
Verification development for the `hdruk_gateway` package
(uk-health-data-assistant repository).

The Python sources in `src/hdruk_gateway/` (client.py, models.py,
search.py, exceptions.py) are shallowly embedded below: JSON values and
Python dictionary access become an explicit value type with
`Except`-style error propagation, the dataclasses become structures with
the same field defaults, and every operation the claims mention is
translated statement by statement from the source.
-/

/-- A JSON-like Python value as passed around the client. -/
inductive JValue where
  | null
  | bool (b : Bool)
  | num (n : Int)
  | str (s : String)
  | arr (xs : List JValue)
  | obj (fields : List (String × JValue))
deriving Inhabited

mutual

/-- Structural equality on JValue (Python `==` on parsed JSON values). -/
def JValue.beq : JValue → JValue → Bool
  | .null, .null => true
  | .bool a, .bool b => a == b
  | .num a, .num b => a == b
  | .str a, .str b => a == b
  | .arr xs, .arr ys => JValue.beqList xs ys
  | .obj fs, .obj gs => JValue.beqFields fs gs
  | _, _ => false

def JValue.beqList : List JValue → List JValue → Bool
  | [], [] => true
  | x :: xs, y :: ys => JValue.beq x y && JValue.beqList xs ys
  | _, _ => false

def JValue.beqFields : List (String × JValue) → List (String × JValue) → Bool
  | [], [] => true
  | (k, v) :: fs, (k2, v2) :: gs =>
    (k == k2 && JValue.beq v v2) && JValue.beqFields fs gs
  | _, _ => false

end

instance : BEq JValue := ⟨JValue.beq⟩

/-- Python runtime errors the embedded code can raise. -/
inductive PyErr where
  | valueError
  | attributeError
  | typeError
deriving Repr, DecidableEq

/-- First binding of a key in an association list (Python dict lookup;
    a Python dict has unique keys, so first-match is exact). -/
def jlookup (fields : List (String × JValue)) (k : String) : Option JValue :=
  (fields.find? (fun p => p.1 == k)).map (fun p => p.2)

/-- Python `v.get(k, dflt)`: total on dict objects, `AttributeError` on any
    other receiver. -/
def dictGet (v : JValue) (k : String) (dflt : JValue) : Except PyErr JValue :=
  match v with
  | .obj fs => .ok ((jlookup fs k).getD dflt)
  | _ => .error .attributeError

/-- Python `v.get(k)` (default `None`). -/
def dictGet0 (v : JValue) (k : String) : Except PyErr JValue :=
  dictGet v k .null

/-- Python truthiness of a JSON-like value. -/
def truthy : JValue → Bool
  | .null => false
  | .bool b => b
  | .num n => n != 0
  | .str s => s ≠ ""
  | .arr xs => !xs.isEmpty
  | .obj fs => !fs.isEmpty

/-- Python `a or b`. -/
def pyOr (a b : JValue) : JValue := if truthy a then a else b

/-- Python `str()` rendering; exact for the scalar values the claims
    exercise, abstracted for containers (no claim depends on those). -/
def pyStr : JValue → String
  | .null => "None"
  | .bool true => "True"
  | .bool false => "False"
  | .num n => toString n
  | .str s => s
  | .arr _ => "<list>"
  | .obj _ => "<dict>"

/-! ### Enumerations (models.py lines 14-47) -/

/-- models.py ResourceType. -/
inductive ResourceType where
  | dataset
  | dataUseRegister
  | publication
  | tool
  | collection
  | dataProvider
deriving Repr, DecidableEq

def ResourceType.value : ResourceType → String
  | .dataset => "dataset"
  | .dataUseRegister => "dataUseRegister"
  | .publication => "publication"
  | .tool => "tool"
  | .collection => "collection"
  | .dataProvider => "dataProvider"

/-- models.py DatasetStatus. -/
inductive DatasetStatus where
  | draft
  | pending
  | active
  | rejected
  | archived
deriving Repr, DecidableEq

def DatasetStatus.value : DatasetStatus → String
  | .draft => "draft"
  | .pending => "pending"
  | .active => "active"
  | .rejected => "rejected"
  | .archived => "archived"

/-- `DatasetStatus(x)`: a plain `Enum` call, so any value outside the
    vocabulary raises `ValueError` (models.py defines no fallback member
    and no `missing`-hook for this enum). -/
def DatasetStatus.ofValue : JValue → Except PyErr DatasetStatus
  | .str s =>
    if s = "draft" then .ok .draft
    else if s = "pending" then .ok .pending
    else if s = "active" then .ok .active
    else if s = "rejected" then .ok .rejected
    else if s = "archived" then .ok .archived
    else .error .valueError
  | _ => .error .valueError

/-- models.py AccessType. -/
inductive AccessType where
  | «open»
  | safeguarded
  | controlled
deriving Repr, DecidableEq

def AccessType.value : AccessType → String
  | .«open» => "open"
  | .safeguarded => "safeguarded"
  | .controlled => "controlled"

def AccessType.fromValue? : JValue → Option AccessType
  | .str s =>
    if s = "open" then some .«open»
    else if s = "safeguarded" then some .safeguarded
    else if s = "controlled" then some .controlled
    else none
  | _ => none

/-- models.py OrganisationSector. -/
inductive OrganisationSector where
  | nhs
  | academia
  | government
  | charity
  | commercial
  | other
deriving Repr, DecidableEq

def OrganisationSector.value : OrganisationSector → String
  | .nhs => "NHS"
  | .academia => "Academia"
  | .government => "Government"
  | .charity => "Charity"
  | .commercial => "Commercial"
  | .other => "Other"

def OrganisationSector.fromValue? : JValue → Option OrganisationSector
  | .str s =>
    if s = "NHS" then some .nhs
    else if s = "Academia" then some .academia
    else if s = "Government" then some .government
    else if s = "Charity" then some .charity
    else if s = "Commercial" then some .commercial
    else if s = "Other" then some .other
    else none
  | _ => none

/-- A Python attribute that holds either a converted enum member or the raw
    looked-up value (the mappers convert only truthy values, so a falsy raw
    value is stored unchanged). -/
inductive PyEnumOr (α : Type) where
  | enumVal (a : α)
  | rawVal (v : JValue)


/-- client.py lines 374-379: `organisation_sector` conversion — truthy
    values go through `OrganisationSector(...)` with `ValueError` caught
    and replaced by `OTHER`. -/
def sectorOf (v : JValue) : PyEnumOr OrganisationSector :=
  if truthy v then
    match OrganisationSector.fromValue? v with
    | some s => .enumVal s
    | none => .enumVal .other
  else .rawVal v

/-- client.py lines 381-386: `access_type` conversion — truthy values go
    through `AccessType(...)` with `ValueError` caught and replaced by
    `None`. -/
def accessTypeOf (v : JValue) : PyEnumOr AccessType :=
  if truthy v then
    match AccessType.fromValue? v with
    | some a => .enumVal a
    | none => .rawVal .null
  else .rawVal v

/-! ### Domain model (models.py)

Only the fields the mappers assign are listed explicitly; every other
dataclass field keeps its declared default and is never read by the code
under verification. Field defaults below are the dataclass defaults. -/

structure Publisher where
  id : JValue := .null
  name : JValue := .str ""
  logo : JValue := .null
  description : JValue := .null
  contact_point : JValue := .null
  member_of : JValue := .null


structure Team where
  id : JValue := .str ""
  pid : JValue := .null
  name : JValue := .str ""


structure DatasetMetadata where
  identifier : JValue := .null
  version : JValue := .null
  issued : JValue := .null
  modified : JValue := .null
  title : JValue := .str ""
  abstract : JValue := .null
  description : JValue := .null
  keywords : JValue := .arr []
  publisher : Option Publisher := none
  spatial : JValue := .null
  access_rights : JValue := .null


structure Dataset where
  id : JValue := .str ""
  pid : JValue := .null
  status : DatasetStatus := .active
  metadata : Option DatasetMetadata := none
  team_id : JValue := .null
  team : Option Team := none
  user_id : JValue := .null
  durs_count : JValue := .num 0
  publications_count : JValue := .num 0
  tools_count : JValue := .num 0
  collections_count : JValue := .num 0
  is_cohort_discovery : JValue := .bool false
  versions : JValue := .arr []
  raw : JValue := .obj []


/-- models.py Dataset.title property (raises only if `_raw` is not a dict). -/
def Dataset.title (d : Dataset) : Except PyErr JValue :=
  match d.metadata with
  | some m =>
    if truthy m.title then .ok m.title else dictGet d.raw "name" (.str "Untitled")
  | none => dictGet d.raw "name" (.str "Untitled")

/-- models.py Dataset.publisher_name property. -/
def Dataset.publisher_name (d : Dataset) : JValue :=
  match d.metadata with
  | some m =>
    match m.publisher with
    | some p => p.name
    | none =>
      match d.team with
      | some t => t.name
      | none => .str "Unknown"
  | none =>
    match d.team with
    | some t => t.name
    | none => .str "Unknown"

/-- models.py Dataset.abstract property. -/
def Dataset.abstract (d : Dataset) : JValue :=
  match d.metadata with
  | some m => pyOr m.abstract (pyOr m.description (.str ""))
  | none => .str ""

def Dataset.gateway_url (d : Dataset) : String :=
  "https://www.healthdatagateway.org/dataset/" ++ pyStr d.id

structure DataUseRegister where
  id : JValue := .str ""
  project_id_text : JValue := .null
  project_title : JValue := .str ""
  organisation_id : JValue := .null
  organisation_name : JValue := .null
  organisation_sector : PyEnumOr OrganisationSector := .rawVal .null
  project_start_date : JValue := .null
  project_end_date : JValue := .null
  access_date : JValue := .null
  latest_approval_date : JValue := .null
  lay_summary : JValue := .null
  technical_summary : JValue := .null
  public_benefit_statement : JValue := .null
  datasets : JValue := .arr []
  keywords : JValue := .arr []
  access_type : PyEnumOr AccessType := .rawVal .null
  team : Option Team := none
  status : JValue := .null
  raw : JValue := .obj []


def DataUseRegister.gateway_url (d : DataUseRegister) : String :=
  "https://www.healthdatagateway.org/datause/" ++ pyStr d.id

structure Publication where
  id : JValue := .str ""
  paper_title : JValue := .str ""
  authors : JValue := .null
  year_of_publication : JValue := .null
  journal_name : JValue := .null
  paper_doi : JValue := .null
  publication_type : JValue := .null
  abstract : JValue := .null
  full_text_url : JValue := .null
  url : JValue := .null
  status : JValue := .null
  raw : JValue := .obj []


def Publication.gateway_url (p : Publication) : String :=
  "https://www.healthdatagateway.org/publication/" ++ pyStr p.id

structure Tool where
  id : JValue := .str ""
  name : JValue := .str ""
  description : JValue := .null
  url : JValue := .null
  license : JValue := .null
  tech_stack : JValue := .null
  programming_languages : JValue := .arr []
  tags : JValue := .arr []
  team : Option Team := none
  enabled : JValue := .bool true
  raw : JValue := .obj []


structure Collection where
  id : JValue := .str ""
  name : JValue := .str ""
  description : JValue := .null
  keywords : JValue := .arr []
  enabled : JValue := .bool true
  status : JValue := .null
  pub : JValue := .bool true
  team : Option Team := none
  raw : JValue := .obj []


/-- models.py SearchResult: the aggregate of per-resource-type result
    lists (each defaulting to the empty list). -/
structure SearchResult where
  datasets : List Dataset := []
  data_uses : List DataUseRegister := []
  publications : List Publication := []
  tools : List Tool := []
  collections : List Collection := []


/-- models.py SearchResult.total_results. -/
def SearchResult.total_results (r : SearchResult) : Nat :=
  r.datasets.length + r.data_uses.length + r.publications.length +
    r.tools.length + r.collections.length

/-! ### Resource mappers (client.py) -/

/-- The two-field team block shared by the data-use, tool and collection
    mappers (client.py lines 388-394 and clones): a truthy `team` value is
    probed for id and name (raising on a non-dict), a falsy one yields no
    team. -/
def parse_team_short (teamData : JValue) : Except PyErr (Option Team) :=
  if truthy teamData then do
    let tid ← dictGet teamData "id" (.str "")
    let tname ← dictGet teamData "name" (.str "")
    pure (some { id := tid, name := tname })
  else pure none

/-- The dataset mapper's team block (client.py lines 244-251), which also
    reads pid. -/
def parse_team_pid (teamData : JValue) : Except PyErr (Option Team) :=
  if truthy teamData then do
    let tid ← dictGet teamData "id" (.str "")
    let tname ← dictGet teamData "name" (.str "")
    let tpid ← dictGet0 teamData "pid"
    pure (some { id := tid, name := tname, pid := tpid })
  else pure none

/-- client.py GatewayClient._parse_dataset (lines 211-268), translated
    statement by statement; dictionary probes run in source order and
    propagate the Python errors the source would raise. -/
def parse_dataset (data : JValue) : Except PyErr Dataset := do
  let lm ← dictGet data "latest_metadata" (.obj [])
  let mm ← dictGet lm "metadata" (.obj [])
  let rawMeta0 ← dictGet mm "metadata" (.obj [])
  let rawMeta ← if truthy rawMeta0 then pure rawMeta0 else dictGet data "metadata" (.obj [])
  let metadata ← if truthy rawMeta then do
      let publisherData ← dictGet rawMeta "publisher" (.obj [])
      let publisher ← if truthy publisherData then do
          let pid0 ← dictGet0 publisherData "id"
          let pname ← dictGet publisherData "name" (.str "")
          let plogo ← dictGet0 publisherData "logo"
          let pdescr ← dictGet0 publisherData "description"
          let pcontact ← dictGet0 publisherData "contactPoint"
          pure (some { id := pid0, name := pname, logo := plogo,
                       description := pdescr, contact_point := pcontact : Publisher })
        else pure (none : Option Publisher)
      let identifier ← dictGet0 rawMeta "identifier"
      let version ← dictGet0 rawMeta "version"
      let issued ← dictGet0 rawMeta "issued"
      let modified ← dictGet0 rawMeta "modified"
      let nameDflt ← dictGet data "name" (.str "")
      let title ← dictGet rawMeta "title" nameDflt
      let abstract ← dictGet0 rawMeta "abstract"
      let description ← dictGet0 rawMeta "description"
      let keywords ← dictGet rawMeta "keywords" (.arr [])
      let spatial ← dictGet0 rawMeta "spatial"
      let accessRights ← dictGet rawMeta "accessRights" .null
      pure (some { identifier := identifier, version := version, issued := issued,
                   modified := modified, title := title, abstract := abstract,
                   description := description, keywords := keywords,
                   publisher := publisher, spatial := spatial,
                   access_rights := accessRights : DatasetMetadata })
    else pure (none : Option DatasetMetadata)
  let teamData ← dictGet0 data "team"
  let team ← parse_team_pid teamData
  let did ← dictGet data "id" (.str "")
  let dpid ← dictGet0 data "pid"
  let statusRaw ← dictGet data "status" (.str "active")
  let status ← DatasetStatus.ofValue statusRaw
  let teamId ← dictGet0 data "team_id"
  let userId ← dictGet0 data "user_id"
  let dursCount ← dictGet data "durs_count" (.num 0)
  let pubsCount ← dictGet data "publications_count" (.num 0)
  let toolsCount ← dictGet data "tools_count" (.num 0)
  let collsCount ← dictGet data "collections_count" (.num 0)
  let isCohort ← dictGet data "is_cohort_discovery" (.bool false)
  let versions ← dictGet data "versions" (.arr [])
  pure { id := did, pid := dpid, status := status, metadata := metadata,
         team_id := teamId, team := team, user_id := userId,
         durs_count := dursCount, publications_count := pubsCount,
         tools_count := toolsCount, collections_count := collsCount,
         is_cohort_discovery := isCohort, versions := versions, raw := data }

/-- client.py GatewayClient._parse_data_use (lines 372-416). -/
def parse_data_use (data : JValue) : Except PyErr DataUseRegister := do
  let sectorRaw ← dictGet0 data "organisation_sector"
  let sector := sectorOf sectorRaw
  let accessRaw ← dictGet0 data "access_type"
  let access := accessTypeOf accessRaw
  let teamData ← dictGet0 data "team"
  let team ← parse_team_short teamData
  let did ← dictGet data "id" (.str "")
  let projectIdText ← dictGet0 data "project_id_text"
  let ptDflt ← dictGet data "projectTitle" (.str "")
  let projectTitle ← dictGet data "project_title" ptDflt
  let organisationId ← dictGet0 data "organisation_id"
  let onDflt ← dictGet0 data "organisationName"
  let organisationName ← dictGet data "organisation_name" onDflt
  let psdDflt ← dictGet0 data "projectStartDate"
  let projectStartDate ← dictGet data "project_start_date" psdDflt
  let pedDflt ← dictGet0 data "projectEndDate"
  let projectEndDate ← dictGet data "project_end_date" pedDflt
  let adDflt ← dictGet0 data "accessDate"
  let accessDate ← dictGet data "access_date" adDflt
  let ladDflt ← dictGet0 data "latestApprovalDate"
  let latestApprovalDate ← dictGet data "latest_approval_date" ladDflt
  let lsDflt ← dictGet0 data "laySummary"
  let laySummary ← dictGet data "lay_summary" lsDflt
  let tsDflt ← dictGet0 data "technicalSummary"
  let technicalSummary ← dictGet data "technical_summary" tsDflt
  let pbsDflt ← dictGet0 data "publicBenefitStatement"
  let publicBenefit ← dictGet data "public_benefit_statement" pbsDflt
  let dsDflt ← dictGet data "datasetTitles" (.arr [])
  let datasets ← dictGet data "datasets" dsDflt
  let keywords ← dictGet data "keywords" (.arr [])
  let status ← dictGet0 data "status"
  pure { id := did, project_id_text := projectIdText, project_title := projectTitle,
         organisation_id := organisationId, organisation_name := organisationName,
         organisation_sector := sector, project_start_date := projectStartDate,
         project_end_date := projectEndDate, access_date := accessDate,
         latest_approval_date := latestApprovalDate, lay_summary := laySummary,
         technical_summary := technicalSummary,
         public_benefit_statement := publicBenefit, datasets := datasets,
         keywords := keywords, access_type := access, team := team,
         status := status, raw := data }

/-- client.py GatewayClient._parse_publication (lines 487-502); every
    probe is a `data.get`, so the mapper is total on dict inputs. -/
def parse_publication (data : JValue) : Except PyErr Publication := do
  let pid0 ← dictGet data "id" (.str "")
  let ptDflt ← dictGet data "paperTitle" (.str "")
  let paperTitle ← dictGet data "paper_title" ptDflt
  let authors ← dictGet0 data "authors"
  let yDflt ← dictGet0 data "yearOfPublication"
  let year ← dictGet data "year_of_publication" yDflt
  let jnDflt ← dictGet0 data "journalName"
  let journalName ← dictGet data "journal_name" jnDflt
  let doiDflt ← dictGet0 data "paperDoi"
  let paperDoi ← dictGet data "paper_doi" doiDflt
  let ptyDflt ← dictGet0 data "publicationType"
  let pubType ← dictGet data "publication_type" ptyDflt
  let abstract ← dictGet0 data "abstract"
  let fullTextUrl ← dictGet0 data "full_text_url"
  let url ← dictGet0 data "url"
  let status ← dictGet0 data "status"
  pure { id := pid0, paper_title := paperTitle, authors := authors,
         year_of_publication := year, journal_name := journalName,
         paper_doi := paperDoi, publication_type := pubType,
         abstract := abstract, full_text_url := fullTextUrl, url := url,
         status := status, raw := data }

/-- client.py GatewayClient._parse_tool (lines 536-555). -/
def parse_tool (data : JValue) : Except PyErr Tool := do
  let teamData ← dictGet0 data "team"
  let team ← parse_team_short teamData
  let tid0 ← dictGet data "id" (.str "")
  let name ← dictGet data "name" (.str "")
  let description ← dictGet0 data "description"
  let url ← dictGet0 data "url"
  let license ← dictGet0 data "license"
  let techStack ← dictGet0 data "tech_stack"
  let progLangs ← dictGet data "programming_languages" (.arr [])
  let tags ← dictGet data "tags" (.arr [])
  let enabled ← dictGet data "enabled" (.bool true)
  pure { id := tid0, name := name, description := description, url := url,
         license := license, tech_stack := techStack,
         programming_languages := progLangs, tags := tags, team := team,
         enabled := enabled, raw := data }

/-- client.py GatewayClient._parse_collection (lines 589-606). -/
def parse_collection (data : JValue) : Except PyErr Collection := do
  let teamData ← dictGet0 data "team"
  let team ← parse_team_short teamData
  let cid ← dictGet data "id" (.str "")
  let name ← dictGet data "name" (.str "")
  let description ← dictGet0 data "description"
  let keywords ← dictGet data "keywords" (.arr [])
  let enabled ← dictGet data "enabled" (.bool true)
  let status ← dictGet0 data "status"
  let pub ← dictGet data "public" (.bool true)
  pure { id := cid, name := name, description := description,
         keywords := keywords, enabled := enabled, status := status,
         pub := pub, team := team, raw := data }

/-! ### String machinery for the query parser (search.py)

Python's `sub in s`, `str.lower()`, `str.split()`, `str.title()` and
`re.sub(r'\b<term>\b', '', s, flags=re.IGNORECASE)` are embedded below.
Every removed term in search.py is ASCII and starts and ends with a word
character, so the `\b` conditions reduce to the neighbouring characters
not being word characters. -/

/-- Python `str.lower()` on ASCII text (character-wise, so that the
    kernel can evaluate it). -/
def pyLower (s : String) : String := String.mk (s.toList.map Char.toLower)

/-- Python `sub in s` on character lists. -/
def listContainsSub (sub : List Char) : List Char → Bool
  | [] => sub.isEmpty
  | c :: cs => sub.isPrefixOf (c :: cs) || listContainsSub sub cs

/-- Python `sub in s`. -/
def pyIn (sub s : String) : Bool := listContainsSub sub.toList s.toList

/-- Regex `\w` (ASCII inputs). -/
def isWordChar (c : Char) : Bool := c.isAlphanum || c == '_'

/-- Case-insensitively strip the (lowercase) pattern `t` from the front of
    `s`, returning the remainder. -/
def dropCI : List Char → List Char → Option (List Char)
  | [], rest => some rest
  | _ :: _, [] => none
  | a :: as, b :: bs => if b.toLower == a then dropCI as bs else none

theorem dropCI_length (t : List Char) :
    ∀ s r, dropCI t s = some r → r.length ≤ s.length := by
  induction t with
  | nil =>
    intro s r h
    simp only [dropCI, Option.some.injEq] at h
    exact h ▸ Nat.le_refl _
  | cons a as ih =>
    intro s r h
    cases s with
    | nil => exact absurd h (by simp [dropCI])
    | cons b bs =>
      simp only [dropCI] at h
      split at h
      · exact Nat.le_trans (ih bs r h) (by simp)
      · exact absurd h (by simp)

/-- Scanner for one `re.sub(r'\b<term>\b', '', text, IGNORECASE)` pass:
    non-overlapping whole-word occurrences of the term `t0 :: ts`
    (lowercase) are deleted; `prev` is the character before the scan
    position (`none` at the start of the string); after a deletion the
    scan resumes past the match, whose last character `tlast` becomes the
    left context. The fuel argument is structural so that the kernel can
    evaluate the scanner; every step consumes at least one character, so
    with fuel above the input length the zero-fuel case is unreachable. -/
def subWordGo (t0 : Char) (ts : List Char) (tlast : Char) :
    Nat → Option Char → List Char → List Char
  | 0, _, _ => []
  | _ + 1, _, [] => []
  | fuel + 1, prev, c :: cs =>
    if c.toLower == t0 then
      match dropCI ts cs with
      | some rest =>
        if (match prev with | none => true | some p => !isWordChar p)
            && (match rest with | [] => true | r :: _ => !isWordChar r) then
          subWordGo t0 ts tlast fuel (some tlast) rest
        else c :: subWordGo t0 ts tlast fuel (some c) cs
      | none => c :: subWordGo t0 ts tlast fuel (some c) cs
    else c :: subWordGo t0 ts tlast fuel (some c) cs

/-- `re.sub(rf'\b<term>\b', '', s, flags=re.IGNORECASE)` for the ASCII
    vocabulary terms of search.py. -/
def subWordCI (term : String) (s : String) : String :=
  match term.toList with
  | [] => s
  | t0 :: ts =>
    String.mk (subWordGo t0 ts ((t0 :: ts).getLastD t0) (s.toList.length + 1)
      none s.toList)

/-- Python `str.split()` (split on whitespace runs, dropping empties);
    `cur` holds the current word's characters in reverse. -/
def wordsGo (cur : List Char) : List Char → List String
  | [] => if cur.isEmpty then [] else [String.mk cur.reverse]
  | c :: cs =>
    if c.isWhitespace then
      if cur.isEmpty then wordsGo [] cs
      else String.mk cur.reverse :: wordsGo [] cs
    else wordsGo (c :: cur) cs

def pySplit (s : String) : List String := wordsGo [] s.toList

/-- search.py line 177: `' '.join(cleaned_query.split()).strip()` (the
    final strip is a no-op on the joined pieces). -/
def normWS (s : String) : String := " ".intercalate (pySplit s)

/-- Python `str.title()` on ASCII text: a cased character following a
    non-cased character is uppercased, the rest are lowercased. -/
def pyTitleGo : Bool → List Char → List Char
  | _, [] => []
  | prevCased, c :: cs =>
    if c.isAlpha then
      (if prevCased then c.toLower else c.toUpper) :: pyTitleGo true cs
    else c :: pyTitleGo false cs

def pyTitle (s : String) : String := String.mk (pyTitleGo false s.toList)

/-! ### Vocabulary tables (search.py lines 78-114, in dict insertion order) -/

def CONDITION_KEYWORDS : List (String × List String) :=
  [("diabetes", ["diabetes", "diabetic", "glucose", "hba1c", "insulin"]),
   ("cardiovascular", ["heart", "cardiac", "cardiovascular", "cvd", "stroke", "hypertension"]),
   ("cancer", ["cancer", "oncology", "tumour", "tumor", "malignant", "neoplasm"]),
   ("mental health", ["mental", "psychiatric", "depression", "anxiety", "psychosis"]),
   ("respiratory", ["respiratory", "lung", "pulmonary", "asthma", "copd"]),
   ("maternal", ["maternal", "pregnancy", "prenatal", "postnatal", "obstetric"]),
   ("covid", ["covid", "coronavirus", "sars-cov-2", "pandemic"]),
   ("genomics", ["genomic", "genetic", "dna", "wgs", "genome", "sequencing"])]

def REGION_KEYWORDS : List (String × List String) :=
  [("england", ["england", "english", "nhs england"]),
   ("wales", ["wales", "welsh", "sail"]),
   ("scotland", ["scotland", "scottish", "rds", "research data scotland"]),
   ("northern ireland", ["northern ireland", "ni"]),
   ("uk", ["uk", "united kingdom", "british", "national"])]

def DATA_TYPE_KEYWORDS : List (String × List String) :=
  [("primary care", ["primary care", "gp", "general practice", "cprd"]),
   ("hospital", ["hospital", "hes", "secondary care", "inpatient", "outpatient"]),
   ("registry", ["registry", "register", "cancer registry"]),
   ("cohort", ["cohort", "biobank", "longitudinal"]),
   ("imaging", ["imaging", "mri", "ct", "x-ray", "radiology"]),
   ("genomic", ["genomic", "genetic", "wgs", "exome"])]

def PUBLISHER_ALIASES : List (String × List String) :=
  [("cprd", ["CPRD", "Clinical Practice Research Datalink"]),
   ("opensafely", ["OpenSAFELY"]),
   ("uk biobank", ["UK Biobank"]),
   ("sail", ["SAIL Databank", "SAIL"]),
   ("nhs england", ["NHS England", "NHS Digital"]),
   ("genomics england", ["Genomics England"]),
   ("rds", ["Research Data Scotland"])]

/-- search.py line 173. -/
def fillerWords : List String :=
  ["data", "dataset", "datasets", "in", "for", "about", "the", "with", "from"]

/-- models.py SearchFilters; the fields the embedded code reads or writes
    (the remaining dataclass fields keep their defaults and are never
    consulted by to_dict beyond those listed, nor by the parser). -/
structure SearchFilters where
  query : String := ""
  resource_type : Option ResourceType := none
  geographic_coverage : List String := []
  publisher : List String := []
  organisation_sector : List OrganisationSector := []
  keywords : List String := []
  page : Nat := 1
  per_page : Nat := 25
  sort_by : String := "relevance"
  sort_order : String := "desc"
  extra_filters : List (String × JValue) := []

/-- search.py DatasetSearcher.parse_query (lines 125-179). -/
def parse_query (query : String) : String × SearchFilters :=
  let ql := pyLower query
  let condKws := CONDITION_KEYWORDS.foldl
    (fun acc p =>
      match p.2.find? (fun k => pyIn k ql) with
      | some _ => acc ++ [p.1]
      | none => acc) []
  let regStep := REGION_KEYWORDS.foldl
    (fun (acc : List String × List String) p =>
      match p.2.find? (fun k => pyIn k ql) with
      | some kw => (acc.1 ++ [pyTitle p.1], acc.2 ++ [kw])
      | none => acc) ([], [])
  let dtKws := DATA_TYPE_KEYWORDS.foldl
    (fun acc p =>
      match p.2.find? (fun k => pyIn k ql) with
      | some _ => acc ++ [p.1]
      | none => acc) []
  let pubStep := PUBLISHER_ALIASES.foldl
    (fun (acc : List String × List String) p =>
      if pyIn p.1 ql then (acc.1 ++ p.2, acc.2 ++ [p.1]) else acc)
    ([], [])
  let termsToRemove := regStep.2 ++ pubStep.2
  let cleaned0 := termsToRemove.foldl (fun s t => subWordCI t s) query
  let cleaned1 := fillerWords.foldl (fun s t => subWordCI t s) cleaned0
  let cleaned := normWS cleaned1
  (cleaned,
   { keywords := condKws ++ dtKws,
     geographic_coverage := regStep.1,
     publisher := pubStep.1 })

/-! ### Transport and client operations (client.py, exceptions.py) -/

/-- The HTTP response the session hands back (after its retry adapter);
    `jsonBody` is the parsed JSON of the body text. -/
structure HttpResponse where
  status : Nat
  contentType : String := "application/json"
  retryAfter : Option Nat := none
  jsonBody : JValue := .obj []
  text : String := "x"

/-- What one session.request call yields: a response, or one of the
    requests-library exceptions client.py catches (lines 190-195). -/
inductive TransportOutcome where
  | timeoutExc
  | connExc (msg : String)
  | reqExc (msg : String)
  | resp (r : HttpResponse)

/-- exceptions.py error taxonomy, with the constructor arguments each
    class stores. -/
inductive GatewayError where
  | auth (url : String)
  | notFound (resource_type : String) (resource_id : String) (url : String)
  | rateLimit (retryAfter : Option Nat) (url : String)
  | server (message : String) (status : Nat) (url : String)
  | api (message : String) (status : Option Nat) (responseData : JValue) (url : String)
  | timeout (seconds : Nat) (url : String)
  | connection (msg : String) (url : String)

/-- Errors a client operation can surface: a Gateway error from the
    taxonomy, or a plain Python error from response handling. -/
inductive ClientErr where
  | gateway (e : GatewayError)
  | py (e : PyErr)

def DEFAULT_BASE_URL : String := "https://api.www.healthdatagateway.org/api/v1"

/-- client.py _build_url for the default base URL (urljoin of the base
    plus the endpoint with leading slashes stripped; GET query parameters
    do not occur on the modeled endpoints). -/
def buildUrl (endpoint : String) : String :=
  DEFAULT_BASE_URL ++ "/" ++ (endpoint.dropWhile (fun c => c == '/'))

/-- client.py GatewayClient._request (lines 121-195): classify the
    transport outcome by status code, then decode the body by content
    type. -/
def gatewayRequest (endpoint : String) (out : TransportOutcome) :
    Except GatewayError JValue :=
  let url := buildUrl endpoint
  match out with
  | .timeoutExc => .error (.timeout 30 url)
  | .connExc m => .error (.connection m url)
  | .reqExc m => .error (.api m none (.obj []) url)
  | .resp r =>
    if r.status == 401 then .error (.auth url)
    else if r.status == 404 then .error (.notFound "Resource" endpoint url)
    else if r.status == 429 then .error (.rateLimit r.retryAfter url)
    else if r.status ≥ 500 then
      .error (.server ("Server error: " ++ toString r.status) r.status url)
    else if r.status ≥ 400 then
      .error (.api ("Request failed: " ++ toString r.status) (some r.status)
        (if r.text ≠ "" then r.jsonBody else .obj []) url)
    else if pyIn "application/json" r.contentType then .ok r.jsonBody
    else if pyIn "text/csv" r.contentType then
      .ok (.obj [("csv_data", .str r.text), ("content_type", .str "csv")])
    else .ok (.obj [("data", .str r.text), ("content_type", .str r.contentType)])

/-- client.py GatewayClient.get_dataset (lines 270-282): single GET with
    optional data envelope unwrap; every error propagates unchanged. -/
def get_dataset (datasetId : String) (out : TransportOutcome) :
    Except ClientErr Dataset := do
  let response ← (gatewayRequest ("/datasets/" ++ datasetId) out).mapError ClientErr.gateway
  let data ← (dictGet response "data" response).mapError ClientErr.py
  (parse_dataset data).mapError ClientErr.py

/-- A request issued by the client (method, endpoint, and the JSON body
    for the POST /search endpoint). -/
structure Request where
  method : String
  endpoint : String
  params : List (String × JValue)

/-- Python dict.update on an insertion-ordered association list:
    existing keys are overwritten in place, new keys appended. -/
def updateEntry (l : List (String × JValue)) (k : String) (v : JValue) :
    List (String × JValue) :=
  if l.any (fun p => p.1 == k) then
    l.map (fun p => if p.1 == k then (k, v) else p)
  else l ++ [(k, v)]

def dictUpdate (l upd : List (String × JValue)) : List (String × JValue) :=
  upd.foldl (fun acc p => updateEntry acc p.1 p.2) l

/-- models.py SearchFilters.to_dict (lines 467-500). -/
def SearchFilters.to_dict (f : SearchFilters) : List (String × JValue) :=
  let base :=
    (if f.query ≠ "" then [("search", JValue.str f.query)] else []) ++
    (match f.resource_type with
     | some rt => [("type", JValue.str rt.value)]
     | none => []) ++
    (if f.geographic_coverage ≠ [] then
      [("geographicCoverage", JValue.arr (f.geographic_coverage.map JValue.str))]
     else []) ++
    (if f.publisher ≠ [] then
      [("publisher", JValue.arr (f.publisher.map JValue.str))]
     else []) ++
    (if f.organisation_sector ≠ [] then
      [("organisationSector",
        JValue.arr (f.organisation_sector.map (fun s => JValue.str s.value)))]
     else []) ++
    (if f.keywords ≠ [] then
      [("keywords", JValue.arr (f.keywords.map JValue.str))]
     else []) ++
    [("page", JValue.num f.page), ("perPage", JValue.num f.per_page),
     ("sortBy", JValue.str f.sort_by), ("sortOrder", JValue.str f.sort_order)]
  dictUpdate base f.extra_filters

/-- Python iteration over a decoded JSON value (`for d in data`): lists
    yield elements, dicts their keys, strings their characters; other
    values raise TypeError. -/
def pyIterate : JValue → Except PyErr (List JValue)
  | .arr xs => .ok xs
  | .obj fs => .ok (fs.map (fun p => .str p.1))
  | .str s => .ok (s.toList.map (fun c => .str (String.mk [c])))
  | _ => .error .typeError

/-- `[parse(d) for d in data if d]`. -/
def parseListWith {α} (p : JValue → Except PyErr α) (data : JValue) :
    Except PyErr (List α) := do
  let xs ← pyIterate data
  (xs.filter truthy).mapM p

/-- The body shared by every search_<resource> call (client.py lines
    318-324 and its four clones): POST the request, swallow any
    GatewayAPIError into an empty list, else unwrap `data` and map the
    resource parser over the truthy entries. -/
def runSearch {α} (req : Request) (p : JValue → Except PyErr α)
    (net : Request → TransportOutcome) : Except PyErr (List α) :=
  match gatewayRequest req.endpoint (net req) with
  | .error _ => .ok []
  | .ok response => do
    let data ← dictGet response "data" (.arr [])
    parseListWith p data

/-- client.py search_datasets (lines 284-324): the minimum-length guard
    (`if query and len(query) < MIN_SEARCH_LENGTH: return []`) suppresses
    the request; otherwise the body params are the base dict updated with
    filters.to_dict(). -/
def search_datasets_request (query : String) (filters : Option SearchFilters)
    (page perPage : Nat) : Option Request :=
  if query ≠ "" && query.length < 3 then none
  else
    let base := [("search", JValue.str query), ("type", JValue.str "dataset"),
                 ("page", JValue.num page), ("perPage", JValue.num perPage)]
    let params := match filters with
      | some f => dictUpdate base f.to_dict
      | none => base
    some { method := "POST", endpoint := "/search", params := params }

def search_datasets (query : String) (filters : Option SearchFilters)
    (page perPage : Nat) (net : Request → TransportOutcome) :
    Option Request × Except PyErr (List Dataset) :=
  match search_datasets_request query filters page perPage with
  | none => (none, .ok [])
  | some req => (some req, runSearch req parse_dataset net)

/-- client.py search_data_uses (lines 424-464): no length guard; optional
    publisher / sector parameters are appended when truthy. -/
def search_data_uses_request (query : String) (pub : Option String)
    (sectors : Option (List OrganisationSector)) (page perPage : Nat) : Request :=
  let base := [("search", JValue.str query), ("type", JValue.str "dataUseRegister"),
               ("page", JValue.num page), ("perPage", JValue.num perPage)]
  let withPub := match pub with
    | some p => if p ≠ "" then base ++ [("publisher", JValue.str p)] else base
    | none => base
  let withSec := match sectors with
    | some l =>
      if l ≠ [] then
        withPub ++ [("organisationSector", JValue.arr (l.map (fun s => JValue.str s.value)))]
      else withPub
    | none => withPub
  { method := "POST", endpoint := "/search", params := withSec }

def search_data_uses (query : String) (pub : Option String)
    (sectors : Option (List OrganisationSector)) (page perPage : Nat)
    (net : Request → TransportOutcome) :
    Request × Except PyErr (List DataUseRegister) :=
  let req := search_data_uses_request query pub sectors page perPage
  (req, runSearch req parse_data_use net)

/-- client.py search_publications (lines 510-530): no length guard. -/
def search_publications_request (query : String) (page perPage : Nat) : Request :=
  { method := "POST", endpoint := "/search",
    params := [("search", JValue.str query), ("type", JValue.str "publication"),
               ("page", JValue.num page), ("perPage", JValue.num perPage)] }

def search_publications (query : String) (page perPage : Nat)
    (net : Request → TransportOutcome) :
    Request × Except PyErr (List Publication) :=
  let req := search_publications_request query page perPage
  (req, runSearch req parse_publication net)

/-- client.py search_tools (lines 563-583): no length guard. -/
def search_tools_request (query : String) (page perPage : Nat) : Request :=
  { method := "POST", endpoint := "/search",
    params := [("search", JValue.str query), ("type", JValue.str "tool"),
               ("page", JValue.num page), ("perPage", JValue.num perPage)] }

def search_tools (query : String) (page perPage : Nat)
    (net : Request → TransportOutcome) : Request × Except PyErr (List Tool) :=
  let req := search_tools_request query page perPage
  (req, runSearch req parse_tool net)

/-- client.py search_collections (lines 614-634): no length guard. -/
def search_collections_request (query : String) (page perPage : Nat) : Request :=
  { method := "POST", endpoint := "/search",
    params := [("search", JValue.str query), ("type", JValue.str "collection"),
               ("page", JValue.num page), ("perPage", JValue.num perPage)] }

def search_collections (query : String) (page perPage : Nat)
    (net : Request → TransportOutcome) : Request × Except PyErr (List Collection) :=
  let req := search_collections_request query page perPage
  (req, runSearch req parse_collection net)

/-- One iteration of the unified search loop (client.py lines 713-727).
    The per-type call already swallows every GatewayAPIError, so the
    enclosing `except GatewayAPIError` is unreachable; a plain Python
    error from a malformed success body is not a GatewayAPIError and
    propagates. The issued request is appended to the call log. -/
def searchStep (query : String) (filters : Option SearchFilters)
    (page perPage : Nat) (net : Request → TransportOutcome)
    (acc : SearchResult × List Request) :
    ResourceType → Except PyErr (SearchResult × List Request)
  | .dataset => do
    let l ← (search_datasets query filters page perPage net).2
    pure ({ acc.1 with datasets := l },
          acc.2 ++ (search_datasets query filters page perPage net).1.toList)
  | .dataUseRegister => do
    let l ← (search_data_uses query none none page perPage net).2
    pure ({ acc.1 with data_uses := l },
          acc.2 ++ [(search_data_uses query none none page perPage net).1])
  | .publication => do
    let l ← (search_publications query page perPage net).2
    pure ({ acc.1 with publications := l },
          acc.2 ++ [(search_publications query page perPage net).1])
  | .tool => do
    let l ← (search_tools query page perPage net).2
    pure ({ acc.1 with tools := l },
          acc.2 ++ [(search_tools query page perPage net).1])
  | .collection => do
    let l ← (search_collections query page perPage net).2
    pure ({ acc.1 with collections := l },
          acc.2 ++ [(search_collections query page perPage net).1])
  | .dataProvider => pure acc

/-- client.py GatewayClient.search (lines 681-728): iterate the requested
    resource types sequentially over a fresh SearchResult. -/
def gatewaySearch (query : String) (resourceTypes : List ResourceType)
    (filters : Option SearchFilters) (page perPage : Nat)
    (net : Request → TransportOutcome) :
    Except PyErr (SearchResult × List Request) :=
  resourceTypes.foldlM (searchStep query filters page perPage net) ({}, [])

/-- client.py lines 702-709: the default resource-type list. -/
def defaultResourceTypes : List ResourceType :=
  [.dataset, .dataUseRegister, .publication, .tool, .collection]

/-! ### Facets, suggestions and export (search.py) -/

/-- Python `counts[k] = counts.get(k, 0) + 1` on an insertion-ordered
    dict: in-place bump, or append of a fresh key. -/
def bumpCount {κ} [BEq κ] (l : List (κ × Nat)) (k : κ) : List (κ × Nat) :=
  match l with
  | [] => [(k, 1)]
  | (k2, n) :: rest =>
    if k2 == k then (k2, n + 1) :: rest else (k2, n) :: bumpCount rest k

/-- Stable insertion (descending by count): an element goes before the
    first strictly-smaller count, i.e. after every earlier element with a
    greater-or-equal count — Python's stable `sorted(key=lambda x: -x[1])`. -/
def insertDesc {κ} (x : κ × Nat) : List (κ × Nat) → List (κ × Nat)
  | [] => [x]
  | y :: ys => if x.2 < y.2 then y :: insertDesc x ys else x :: y :: ys

def sortCountsDesc {κ} : List (κ × Nat) → List (κ × Nat)
  | [] => []
  | x :: xs => insertDesc x (sortCountsDesc xs)

/-- One facet bucket (`{"key": k, "count": v}` in search.py). -/
structure Bucket where
  key : JValue
  count : Nat

/-- search.py SearchFacet (dataclass field `field` is `fieldName` here). -/
structure SearchFacet where
  name : String
  fieldName : String
  buckets : List Bucket := []

/-- search.py lines 274-277: publisher-name counts over the datasets. -/
def publisherCounts (datasets : List Dataset) : List (JValue × Nat) :=
  datasets.foldl (fun acc ds => bumpCount acc ds.publisher_name) []

/-- Truthiness of a value that may hold an enum member (enum members of
    these str-enums are all truthy). -/
def PyEnumOr.pyTruthy {α} : PyEnumOr α → Bool
  | .enumVal _ => true
  | .rawVal v => truthy v

/-- `.value` on something expected to be an OrganisationSector member;
    AttributeError on a non-enum value (unreachable for mapper output). -/
def sectorValue : PyEnumOr OrganisationSector → Except PyErr String
  | .enumVal s => .ok s.value
  | .rawVal _ => .error .attributeError

/-- search.py lines 290-294: sector counts over the data uses. -/
def sectorCountsE (durs : List DataUseRegister) :
    Except PyErr (List (String × Nat)) :=
  durs.foldlM (fun acc dur =>
    if dur.organisation_sector.pyTruthy then do
      let s ← sectorValue dur.organisation_sector
      pure (bumpCount acc s)
    else pure acc) []

/-- search.py DatasetSearcher._generate_facets (lines 269-306): the
    Publisher facet (top 10 by count, stable descending) is appended when
    the publisher counts are non-empty, then the Organisation Sector
    facet (untruncated) when its counts are non-empty. -/
def generateFacets (results : SearchResult) : Except PyErr (List SearchFacet) := do
  let pubCounts := publisherCounts results.datasets
  let facets1 : List SearchFacet :=
    if pubCounts.isEmpty then []
    else [{ name := "Publisher", fieldName := "publisher",
            buckets := ((sortCountsDesc pubCounts).take 10).map
              (fun p => { key := p.1, count := p.2 }) }]
  let secCounts ← sectorCountsE results.data_uses
  let facets2 : List SearchFacet :=
    if secCounts.isEmpty then []
    else [{ name := "Organisation Sector", fieldName := "organisation_sector",
            buckets := (sortCountsDesc secCounts).map
              (fun p => { key := .str p.1, count := p.2 }) }]
  pure (facets1 ++ facets2)

/-- search.py SearchSuggestion (dataclass field `type` is `stype` here);
    the fixed static weights 0.8 and 0.6 are exact rationals. -/
structure SearchSuggestion where
  text : String
  stype : String
  score : ℚ := 1
  metadata : List (String × JValue) := []

/-- search.py DatasetSearcher._generate_suggestions (lines 308-334):
    publisher suggestions only below 5 dataset results; condition
    suggestions whenever at least one dataset was found and the
    condition's synonyms are absent; the combined list is cut to 5. -/
def generateSuggestions (query : String) (results : SearchResult) :
    List SearchSuggestion :=
  let ql := pyLower query
  let pubSuggs : List SearchSuggestion :=
    if results.datasets.length < 5 then
      PUBLISHER_ALIASES.foldl (fun acc p =>
        if !(pyIn p.1 ql) then
          acc ++ [{ text := query ++ " " ++ p.2.headD "", stype := "publisher",
                    score := 0.8,
                    metadata := [("publisher", .str (p.2.headD ""))] }]
        else acc) []
    else []
  let condSuggs : List SearchSuggestion :=
    CONDITION_KEYWORDS.foldl (fun acc p =>
      if !(pyIn p.1 ql) && !(p.2.any (fun k => pyIn k ql)) then
        if !results.datasets.isEmpty then
          acc ++ [{ text := query ++ " " ++ p.1, stype := "condition", score := 0.6 }]
        else acc
      else acc) []
  (pubSuggs ++ condSuggs).take 5

/-- One element of the `"datasets"` list in export_results_json. -/
def exportDatasetEntry (ds : Dataset) : Except PyErr JValue := do
  let title ← ds.title
  pure (JValue.obj [("id", ds.id), ("title", title),
    ("publisher", ds.publisher_name), ("abstract", ds.abstract),
    ("publications_count", ds.publications_count),
    ("data_uses_count", ds.durs_count),
    ("gateway_url", .str ds.gateway_url)])

/-- One element of the `"data_uses"` list in export_results_json
    (`dur.organisation_sector.value if dur.organisation_sector else None`). -/
def exportDataUseEntry (dur : DataUseRegister) : Except PyErr JValue := do
  let sector ← if dur.organisation_sector.pyTruthy then do
      let s ← sectorValue dur.organisation_sector
      pure (JValue.str s)
    else pure JValue.null
  pure (JValue.obj [("id", dur.id), ("project_title", dur.project_title),
    ("organisation", dur.organisation_name), ("sector", sector),
    ("lay_summary", dur.lay_summary),
    ("approval_date", dur.latest_approval_date),
    ("gateway_url", .str dur.gateway_url)])

/-- One element of the `"publications"` list in export_results_json. -/
def exportPublicationEntry (pub : Publication) : JValue :=
  JValue.obj [("id", pub.id), ("title", pub.paper_title),
    ("authors", pub.authors), ("year", pub.year_of_publication),
    ("doi", pub.paper_doi), ("gateway_url", .str pub.gateway_url)]

/-- search.py DatasetSearcher.export_results_json (lines 446-494): the
    dict handed to `json.dumps`; `json.loads` of the dumped string gives
    back exactly this object, so re-parsing the export is the identity
    on the value modeled here. -/
def exportResultsJson (results : SearchResult) : Except PyErr JValue := do
  let datasets ← results.datasets.mapM exportDatasetEntry
  let dataUses ← results.data_uses.mapM exportDataUseEntry
  let pubs := results.publications.map exportPublicationEntry
  pure (JValue.obj [("datasets", .arr datasets), ("data_uses", .arr dataUses),
    ("publications", .arr pubs), ("total_count", .num results.total_results)])

/-! ### Decidable equality for JValue (beq is propositional equality) -/

mutual

theorem JValue.beq_refl : ∀ (v : JValue), JValue.beq v v = true
  | .null => rfl
  | .bool b => by simp [JValue.beq]
  | .num n => by simp [JValue.beq]
  | .str s => by simp [JValue.beq]
  | .arr xs => JValue.beqList_refl xs
  | .obj fs => JValue.beqFields_refl fs

theorem JValue.beqList_refl : ∀ (xs : List JValue), JValue.beqList xs xs = true
  | [] => rfl
  | x :: xs => by
    have h1 := JValue.beq_refl x
    have h2 := JValue.beqList_refl xs
    simp [JValue.beqList, h1, h2]

theorem JValue.beqFields_refl :
    ∀ (fs : List (String × JValue)), JValue.beqFields fs fs = true
  | [] => rfl
  | (k, v) :: fs => by
    have h1 := JValue.beq_refl v
    have h2 := JValue.beqFields_refl fs
    simp [JValue.beqFields, h1, h2]

end

mutual

theorem JValue.eq_of_beqv : ∀ (a b : JValue), JValue.beq a b = true → a = b
  | .null, .null, _ => rfl
  | .bool _, .bool _, h => congrArg JValue.bool (beq_iff_eq.mp h)
  | .num _, .num _, h => congrArg JValue.num (beq_iff_eq.mp h)
  | .str _, .str _, h => congrArg JValue.str (beq_iff_eq.mp h)
  | .arr xs, .arr ys, h => congrArg JValue.arr (JValue.eqList_of_beqv xs ys h)
  | .obj fs, .obj gs, h => congrArg JValue.obj (JValue.eqFields_of_beqv fs gs h)
  | .null, .bool _, h => nomatch h
  | .null, .num _, h => nomatch h
  | .null, .str _, h => nomatch h
  | .null, .arr _, h => nomatch h
  | .null, .obj _, h => nomatch h
  | .bool _, .null, h => nomatch h
  | .bool _, .num _, h => nomatch h
  | .bool _, .str _, h => nomatch h
  | .bool _, .arr _, h => nomatch h
  | .bool _, .obj _, h => nomatch h
  | .num _, .null, h => nomatch h
  | .num _, .bool _, h => nomatch h
  | .num _, .str _, h => nomatch h
  | .num _, .arr _, h => nomatch h
  | .num _, .obj _, h => nomatch h
  | .str _, .null, h => nomatch h
  | .str _, .bool _, h => nomatch h
  | .str _, .num _, h => nomatch h
  | .str _, .arr _, h => nomatch h
  | .str _, .obj _, h => nomatch h
  | .arr _, .null, h => nomatch h
  | .arr _, .bool _, h => nomatch h
  | .arr _, .num _, h => nomatch h
  | .arr _, .str _, h => nomatch h
  | .arr _, .obj _, h => nomatch h
  | .obj _, .null, h => nomatch h
  | .obj _, .bool _, h => nomatch h
  | .obj _, .num _, h => nomatch h
  | .obj _, .str _, h => nomatch h
  | .obj _, .arr _, h => nomatch h

theorem JValue.eqList_of_beqv :
    ∀ (xs ys : List JValue), JValue.beqList xs ys = true → xs = ys
  | [], [], _ => rfl
  | [], _ :: _, h => nomatch h
  | _ :: _, [], h => nomatch h
  | x :: xs, y :: ys, h => by
    have h2 : (JValue.beq x y && JValue.beqList xs ys) = true := h
    have h3 := Bool.and_eq_true_iff.mp h2
    rw [JValue.eq_of_beqv x y h3.1, JValue.eqList_of_beqv xs ys h3.2]

theorem JValue.eqFields_of_beqv :
    ∀ (fs gs : List (String × JValue)), JValue.beqFields fs gs = true → fs = gs
  | [], [], _ => rfl
  | [], _ :: _, h => nomatch h
  | _ :: _, [], h => nomatch h
  | (k, v) :: fs, (k2, v2) :: gs, h => by
    have h2 : ((k == k2 && JValue.beq v v2) && JValue.beqFields fs gs) = true := h
    have h3 := Bool.and_eq_true_iff.mp h2
    have h4 := Bool.and_eq_true_iff.mp h3.1
    rw [beq_iff_eq.mp h4.1, JValue.eq_of_beqv v v2 h4.2,
        JValue.eqFields_of_beqv fs gs h3.2]

end

instance : LawfulBEq JValue where
  eq_of_beq h := JValue.eq_of_beqv _ _ h
  rfl := JValue.beq_refl _

instance : DecidableEq JValue := fun a b =>
  decidable_of_iff ((a == b) = true) ⟨JValue.eq_of_beqv a b, fun h => h ▸ JValue.beq_refl a⟩

deriving instance DecidableEq for Except
deriving instance DecidableEq for PyEnumOr
deriving instance DecidableEq for Publisher
deriving instance DecidableEq for Team
deriving instance DecidableEq for DatasetMetadata
deriving instance DecidableEq for Dataset
deriving instance DecidableEq for DataUseRegister
deriving instance DecidableEq for Publication
deriving instance DecidableEq for Tool
deriving instance DecidableEq for Collection
deriving instance DecidableEq for SearchResult
deriving instance DecidableEq for SearchFilters
deriving instance DecidableEq for Request
deriving instance DecidableEq for GatewayError
deriving instance DecidableEq for ClientErr
deriving instance DecidableEq for Bucket
deriving instance DecidableEq for SearchFacet
deriving instance DecidableEq for SearchSuggestion

/-! ### Characterization of the unified search fold -/

def exceptOkB {ε α} : Except ε α → Bool
  | .ok _ => true
  | .error _ => false

/-- The list a best-effort call produced (empty if it raised). -/
def okD {ε α} : Except ε (List α) → List α
  | .ok l => l
  | .error _ => []

/-- The request the per-type call of `t` issues within the unified search
    (none: the type makes no network call). -/
def requestOf (q : String) (f : Option SearchFilters) (p pp : Nat) :
    ResourceType → Option Request
  | .dataset => search_datasets_request q f p pp
  | .dataUseRegister => some (search_data_uses_request q none none p pp)
  | .publication => some (search_publications_request q p pp)
  | .tool => some (search_tools_request q p pp)
  | .collection => some (search_collections_request q p pp)
  | .dataProvider => none

/-- Whether the per-type call of `t` completes without a Python error
    (GatewayAPIError outcomes are swallowed into `ok []`, so a failing
    transport still counts as completing). -/
def typeOkB (q : String) (f : Option SearchFilters) (p pp : Nat)
    (net : Request → TransportOutcome) : ResourceType → Bool
  | .dataset => exceptOkB (search_datasets q f p pp net).2
  | .dataUseRegister => exceptOkB (search_data_uses q none none p pp net).2
  | .publication => exceptOkB (search_publications q p pp net).2
  | .tool => exceptOkB (search_tools q p pp net).2
  | .collection => exceptOkB (search_collections q p pp net).2
  | .dataProvider => true

/-- The call log the unified search accumulates over `types`. -/
def reqLog (q : String) (f : Option SearchFilters) (p pp : Nat) :
    List ResourceType → List Request
  | [] => []
  | t :: ts => (requestOf q f p pp t).toList ++ reqLog q f p pp ts

/-- The slots the unified search fills over `types`, starting from `sr0`. -/
def expectedFrom (q : String) (f : Option SearchFilters) (p pp : Nat)
    (net : Request → TransportOutcome) (sr0 : SearchResult)
    (types : List ResourceType) : SearchResult :=
  { datasets := if ResourceType.dataset ∈ types then
      okD (search_datasets q f p pp net).2 else sr0.datasets,
    data_uses := if ResourceType.dataUseRegister ∈ types then
      okD (search_data_uses q none none p pp net).2 else sr0.data_uses,
    publications := if ResourceType.publication ∈ types then
      okD (search_publications q p pp net).2 else sr0.publications,
    tools := if ResourceType.tool ∈ types then
      okD (search_tools q p pp net).2 else sr0.tools,
    collections := if ResourceType.collection ∈ types then
      okD (search_collections q p pp net).2 else sr0.collections }

theorem search_datasets_fst (q : String) (f : Option SearchFilters)
    (p pp : Nat) (net : Request → TransportOutcome) :
    (search_datasets q f p pp net).1 = search_datasets_request q f p pp := by
  unfold search_datasets
  cases search_datasets_request q f p pp <;> rfl

theorem search_data_uses_fst (q : String) (pub : Option String)
    (sec : Option (List OrganisationSector)) (p pp : Nat)
    (net : Request → TransportOutcome) :
    (search_data_uses q pub sec p pp net).1 =
      search_data_uses_request q pub sec p pp := rfl

theorem search_publications_fst (q : String) (p pp : Nat)
    (net : Request → TransportOutcome) :
    (search_publications q p pp net).1 = search_publications_request q p pp := rfl

theorem search_tools_fst (q : String) (p pp : Nat)
    (net : Request → TransportOutcome) :
    (search_tools q p pp net).1 = search_tools_request q p pp := rfl

theorem search_collections_fst (q : String) (p pp : Nat)
    (net : Request → TransportOutcome) :
    (search_collections q p pp net).1 = search_collections_request q p pp := rfl

theorem foldSearch_ok (q : String) (f : Option SearchFilters) (p pp : Nat)
    (net : Request → TransportOutcome) (types : List ResourceType)
    (hok : ∀ t ∈ types, typeOkB q f p pp net t = true) :
    ∀ acc : SearchResult × List Request,
    List.foldlM (searchStep q f p pp net) acc types =
      .ok (expectedFrom q f p pp net acc.1 types,
           acc.2 ++ reqLog q f p pp types) := by
  induction types with
  | nil =>
    intro acc
    simp only [List.foldlM, expectedFrom, reqLog, List.append_nil]
    rfl
  | cons t ts ih =>
    intro acc
    have hok_t : typeOkB q f p pp net t = true := hok t (List.mem_cons_self _ _)
    have hok_ts : ∀ t' ∈ ts, typeOkB q f p pp net t' = true :=
      fun t' ht' => hok t' (List.mem_cons_of_mem _ ht')
    cases t with
    | dataset =>
      obtain ⟨l, hl⟩ : ∃ l, (search_datasets q f p pp net).2 = .ok l := by
        revert hok_t
        unfold typeOkB exceptOkB
        cases (search_datasets q f p pp net).2 <;> simp
      rw [List.foldlM_cons]
      simp only [searchStep, hl]
      rw [show ((Except.ok l : Except PyErr (List Dataset)) >>= fun l =>
        pure ({ acc.1 with datasets := l },
          acc.2 ++ (search_datasets q f p pp net).1.toList)) =
        Except.ok (({ acc.1 with datasets := l },
          acc.2 ++ (search_datasets q f p pp net).1.toList) :
            SearchResult × List Request) from rfl]
      rw [show ((Except.ok (({ acc.1 with datasets := l },
          acc.2 ++ (search_datasets q f p pp net).1.toList) :
            SearchResult × List Request)) >>=
          fun acc' => List.foldlM (searchStep q f p pp net) acc' ts) =
        List.foldlM (searchStep q f p pp net)
          ({ acc.1 with datasets := l },
           acc.2 ++ (search_datasets q f p pp net).1.toList) ts from rfl]
      rw [ih hok_ts]
      simp [expectedFrom, reqLog, requestOf, hl, okD, List.mem_cons,
        List.append_assoc, search_datasets_fst, search_data_uses_fst,
        search_publications_fst, search_tools_fst, search_collections_fst]
    | dataUseRegister =>
      obtain ⟨l, hl⟩ : ∃ l, (search_data_uses q none none p pp net).2 = .ok l := by
        revert hok_t
        unfold typeOkB exceptOkB
        cases (search_data_uses q none none p pp net).2 <;> simp
      rw [List.foldlM_cons]
      simp only [searchStep, hl]
      rw [show ((Except.ok l : Except PyErr (List DataUseRegister)) >>= fun l =>
        pure ({ acc.1 with data_uses := l },
          acc.2 ++ [(search_data_uses q none none p pp net).1])) =
        Except.ok (({ acc.1 with data_uses := l },
          acc.2 ++ [(search_data_uses q none none p pp net).1]) :
            SearchResult × List Request) from rfl]
      rw [show ((Except.ok (({ acc.1 with data_uses := l },
          acc.2 ++ [(search_data_uses q none none p pp net).1]) :
            SearchResult × List Request)) >>=
          fun acc' => List.foldlM (searchStep q f p pp net) acc' ts) =
        List.foldlM (searchStep q f p pp net)
          ({ acc.1 with data_uses := l },
           acc.2 ++ [(search_data_uses q none none p pp net).1]) ts from rfl]
      rw [ih hok_ts]
      simp [expectedFrom, reqLog, requestOf, hl, okD, List.mem_cons,
        List.append_assoc, search_datasets_fst, search_data_uses_fst,
        search_publications_fst, search_tools_fst, search_collections_fst]
    | publication =>
      obtain ⟨l, hl⟩ : ∃ l, (search_publications q p pp net).2 = .ok l := by
        revert hok_t
        unfold typeOkB exceptOkB
        cases (search_publications q p pp net).2 <;> simp
      rw [List.foldlM_cons]
      simp only [searchStep, hl]
      rw [show ((Except.ok l : Except PyErr (List Publication)) >>= fun l =>
        pure ({ acc.1 with publications := l },
          acc.2 ++ [(search_publications q p pp net).1])) =
        Except.ok (({ acc.1 with publications := l },
          acc.2 ++ [(search_publications q p pp net).1]) :
            SearchResult × List Request) from rfl]
      rw [show ((Except.ok (({ acc.1 with publications := l },
          acc.2 ++ [(search_publications q p pp net).1]) :
            SearchResult × List Request)) >>=
          fun acc' => List.foldlM (searchStep q f p pp net) acc' ts) =
        List.foldlM (searchStep q f p pp net)
          ({ acc.1 with publications := l },
           acc.2 ++ [(search_publications q p pp net).1]) ts from rfl]
      rw [ih hok_ts]
      simp [expectedFrom, reqLog, requestOf, hl, okD, List.mem_cons,
        List.append_assoc, search_datasets_fst, search_data_uses_fst,
        search_publications_fst, search_tools_fst, search_collections_fst]
    | tool =>
      obtain ⟨l, hl⟩ : ∃ l, (search_tools q p pp net).2 = .ok l := by
        revert hok_t
        unfold typeOkB exceptOkB
        cases (search_tools q p pp net).2 <;> simp
      rw [List.foldlM_cons]
      simp only [searchStep, hl]
      rw [show ((Except.ok l : Except PyErr (List Tool)) >>= fun l =>
        pure ({ acc.1 with tools := l },
          acc.2 ++ [(search_tools q p pp net).1])) =
        Except.ok (({ acc.1 with tools := l },
          acc.2 ++ [(search_tools q p pp net).1]) :
            SearchResult × List Request) from rfl]
      rw [show ((Except.ok (({ acc.1 with tools := l },
          acc.2 ++ [(search_tools q p pp net).1]) :
            SearchResult × List Request)) >>=
          fun acc' => List.foldlM (searchStep q f p pp net) acc' ts) =
        List.foldlM (searchStep q f p pp net)
          ({ acc.1 with tools := l },
           acc.2 ++ [(search_tools q p pp net).1]) ts from rfl]
      rw [ih hok_ts]
      simp [expectedFrom, reqLog, requestOf, hl, okD, List.mem_cons,
        List.append_assoc, search_datasets_fst, search_data_uses_fst,
        search_publications_fst, search_tools_fst, search_collections_fst]
    | collection =>
      obtain ⟨l, hl⟩ : ∃ l, (search_collections q p pp net).2 = .ok l := by
        revert hok_t
        unfold typeOkB exceptOkB
        cases (search_collections q p pp net).2 <;> simp
      rw [List.foldlM_cons]
      simp only [searchStep, hl]
      rw [show ((Except.ok l : Except PyErr (List Collection)) >>= fun l =>
        pure ({ acc.1 with collections := l },
          acc.2 ++ [(search_collections q p pp net).1])) =
        Except.ok (({ acc.1 with collections := l },
          acc.2 ++ [(search_collections q p pp net).1]) :
            SearchResult × List Request) from rfl]
      rw [show ((Except.ok (({ acc.1 with collections := l },
          acc.2 ++ [(search_collections q p pp net).1]) :
            SearchResult × List Request)) >>=
          fun acc' => List.foldlM (searchStep q f p pp net) acc' ts) =
        List.foldlM (searchStep q f p pp net)
          ({ acc.1 with collections := l },
           acc.2 ++ [(search_collections q p pp net).1]) ts from rfl]
      rw [ih hok_ts]
      simp [expectedFrom, reqLog, requestOf, hl, okD, List.mem_cons,
        List.append_assoc, search_datasets_fst, search_data_uses_fst,
        search_publications_fst, search_tools_fst, search_collections_fst]
    | dataProvider =>
      rw [List.foldlM_cons]
      simp only [searchStep]
      rw [show ((pure acc : Except PyErr (SearchResult × List Request)) >>=
          fun acc' => List.foldlM (searchStep q f p pp net) acc' ts) =
        List.foldlM (searchStep q f p pp net) acc ts from rfl]
      rw [ih hok_ts]
      simp [expectedFrom, reqLog, requestOf, List.mem_cons]

theorem searchStep_cases (q : String) (f : Option SearchFilters) (p pp : Nat)
    (net : Request → TransportOutcome) (acc : SearchResult × List Request)
    (t : ResourceType) :
    (typeOkB q f p pp net t = true ∧
       ∃ acc', searchStep q f p pp net acc t = .ok acc') ∨
    (typeOkB q f p pp net t = false ∧
       ∃ e, searchStep q f p pp net acc t = .error e) := by
  cases t with
  | dataset =>
    cases hv : (search_datasets q f p pp net).2 with
    | ok l =>
      exact Or.inl ⟨by simp [typeOkB, exceptOkB, hv],
        ⟨_, by simp only [searchStep, hv]; rfl⟩⟩
    | error e =>
      exact Or.inr ⟨by simp [typeOkB, exceptOkB, hv],
        ⟨e, by simp only [searchStep, hv]; rfl⟩⟩
  | dataUseRegister =>
    cases hv : (search_data_uses q none none p pp net).2 with
    | ok l =>
      exact Or.inl ⟨by simp [typeOkB, exceptOkB, hv],
        ⟨_, by simp only [searchStep, hv]; rfl⟩⟩
    | error e =>
      exact Or.inr ⟨by simp [typeOkB, exceptOkB, hv],
        ⟨e, by simp only [searchStep, hv]; rfl⟩⟩
  | publication =>
    cases hv : (search_publications q p pp net).2 with
    | ok l =>
      exact Or.inl ⟨by simp [typeOkB, exceptOkB, hv],
        ⟨_, by simp only [searchStep, hv]; rfl⟩⟩
    | error e =>
      exact Or.inr ⟨by simp [typeOkB, exceptOkB, hv],
        ⟨e, by simp only [searchStep, hv]; rfl⟩⟩
  | tool =>
    cases hv : (search_tools q p pp net).2 with
    | ok l =>
      exact Or.inl ⟨by simp [typeOkB, exceptOkB, hv],
        ⟨_, by simp only [searchStep, hv]; rfl⟩⟩
    | error e =>
      exact Or.inr ⟨by simp [typeOkB, exceptOkB, hv],
        ⟨e, by simp only [searchStep, hv]; rfl⟩⟩
  | collection =>
    cases hv : (search_collections q p pp net).2 with
    | ok l =>
      exact Or.inl ⟨by simp [typeOkB, exceptOkB, hv],
        ⟨_, by simp only [searchStep, hv]; rfl⟩⟩
    | error e =>
      exact Or.inr ⟨by simp [typeOkB, exceptOkB, hv],
        ⟨e, by simp only [searchStep, hv]; rfl⟩⟩
  | dataProvider =>
    exact Or.inl ⟨rfl, ⟨acc, rfl⟩⟩

theorem foldSearch_classify (q : String) (f : Option SearchFilters) (p pp : Nat)
    (net : Request → TransportOutcome) (types : List ResourceType) :
    ∀ acc, (∀ t ∈ types, typeOkB q f p pp net t = true) ∨
      ∃ e, List.foldlM (searchStep q f p pp net) acc types = .error e := by
  induction types with
  | nil =>
    intro acc
    left
    simp
  | cons t ts ih =>
    intro acc
    rcases searchStep_cases q f p pp net acc t with ⟨hok, acc', hstep⟩ | ⟨_, e, hstep⟩
    · rcases ih acc' with hall | ⟨e, herr⟩
      · left
        intro t' ht'
        rcases List.mem_cons.mp ht' with rfl | h2
        · exact hok
        · exact hall t' h2
      · right
        refine ⟨e, ?_⟩
        rw [List.foldlM_cons, hstep]
        exact herr
    · right
      refine ⟨e, ?_⟩
      rw [List.foldlM_cons, hstep]
      rfl

theorem foldSearch_inv (q : String) (f : Option SearchFilters) (p pp : Nat)
    (net : Request → TransportOutcome) (types : List ResourceType)
    (acc : SearchResult × List Request) (sr : SearchResult) (log : List Request)
    (h : List.foldlM (searchStep q f p pp net) acc types = .ok (sr, log)) :
    (∀ t ∈ types, typeOkB q f p pp net t = true) ∧
    sr = expectedFrom q f p pp net acc.1 types ∧
    log = acc.2 ++ reqLog q f p pp types := by
  rcases foldSearch_classify q f p pp net types acc with hall | ⟨e, herr⟩
  · have h2 := foldSearch_ok q f p pp net types hall acc
    rw [h] at h2
    have h3 := Except.ok.inj h2
    exact ⟨hall, congrArg Prod.fst h3, congrArg Prod.snd h3⟩
  · rw [herr] at h
    exact absurd h (by simp)

/-- Unified search, characterized: when it returns at all, the result is
    exactly the per-type slots and the per-type call log. -/
theorem gatewaySearch_inv (q : String) (types : List ResourceType)
    (f : Option SearchFilters) (p pp : Nat)
    (net : Request → TransportOutcome) (sr : SearchResult) (log : List Request)
    (h : gatewaySearch q types f p pp net = .ok (sr, log)) :
    (∀ t ∈ types, typeOkB q f p pp net t = true) ∧
    sr = expectedFrom q f p pp net {} types ∧
    log = reqLog q f p pp types :=
  foldSearch_inv q f p pp net types ({}, []) sr log h

/-- Unified search succeeds whenever every per-type call completes. -/
theorem gatewaySearch_ok (q : String) (types : List ResourceType)
    (f : Option SearchFilters) (p pp : Nat)
    (net : Request → TransportOutcome)
    (hok : ∀ t ∈ types, typeOkB q f p pp net t = true) :
    gatewaySearch q types f p pp net =
      .ok (expectedFrom q f p pp net {} types, reqLog q f p pp types) :=
  foldSearch_ok q f p pp net types hok ({}, [])

/-! ### Claim C1 -/

/-- Whether the network outcome for `t`'s search request classifies as a
    GatewayAPIError (any subtype: 4xx/5xx status, timeout, connection or
    request exception). -/
def apiFailedB (q : String) (f : Option SearchFilters) (p pp : Nat)
    (net : Request → TransportOutcome) (t : ResourceType) : Bool :=
  match requestOf q f p pp t with
  | some req =>
    match gatewayRequest req.endpoint (net req) with
    | .error _ => true
    | .ok _ => false
  | none => false

/-- That resource type's slot of the SearchResult is the empty list. -/
def slotEmpty (sr : SearchResult) : ResourceType → Prop
  | .dataset => sr.datasets = []
  | .dataUseRegister => sr.data_uses = []
  | .publication => sr.publications = []
  | .tool => sr.tools = []
  | .collection => sr.collections = []
  | .dataProvider => True

/-- That resource type's slot holds exactly what its own search call
    returned. -/
def slotMatches (q : String) (f : Option SearchFilters) (p pp : Nat)
    (net : Request → TransportOutcome) (sr : SearchResult) :
    ResourceType → Prop
  | .dataset => ∀ l, (search_datasets q f p pp net).2 = .ok l → sr.datasets = l
  | .dataUseRegister =>
    ∀ l, (search_data_uses q none none p pp net).2 = .ok l → sr.data_uses = l
  | .publication =>
    ∀ l, (search_publications q p pp net).2 = .ok l → sr.publications = l
  | .tool => ∀ l, (search_tools q p pp net).2 = .ok l → sr.tools = l
  | .collection =>
    ∀ l, (search_collections q p pp net).2 = .ok l → sr.collections = l
  | .dataProvider => True

theorem runSearch_err {α} (req : Request) (px : JValue → Except PyErr α)
    (net : Request → TransportOutcome) (e : GatewayError)
    (h : gatewayRequest req.endpoint (net req) = .error e) :
    runSearch req px net = .ok [] := by
  unfold runSearch
  rw [h]

theorem apiFailed_err (q : String) (f : Option SearchFilters) (p pp : Nat)
    (net : Request → TransportOutcome) (t : ResourceType)
    (hfail : apiFailedB q f p pp net t = true) :
    ∃ req e, requestOf q f p pp t = some req ∧
      gatewayRequest req.endpoint (net req) = .error e := by
  revert hfail
  unfold apiFailedB
  cases hreq : requestOf q f p pp t with
  | none => simp
  | some req =>
    cases hout : gatewayRequest req.endpoint (net req) with
    | error e => exact fun _ => ⟨req, e, rfl, hout⟩
    | ok v =>
      intro hc
      have hc2 : (match gatewayRequest req.endpoint (net req) with
        | Except.error _ => true
        | Except.ok _ => false) = true := hc
      rw [hout] at hc2
      simp at hc2

theorem apiFailed_slotEmpty (q : String) (types : List ResourceType)
    (f : Option SearchFilters) (p pp : Nat) (net : Request → TransportOutcome)
    (t : ResourceType) (ht : t ∈ types)
    (hfail : apiFailedB q f p pp net t = true) :
    slotEmpty (expectedFrom q f p pp net {} types) t := by
  obtain ⟨req, e, hreq, hout⟩ := apiFailed_err q f p pp net t hfail
  cases t with
  | dataset =>
    have hreq2 : search_datasets_request q f p pp = some req := hreq
    have hval : (search_datasets q f p pp net).2 = .ok [] := by
      have heq : search_datasets q f p pp net =
          (some req, runSearch req parse_dataset net) := by
        unfold search_datasets
        rw [hreq2]
      rw [heq]
      exact runSearch_err req parse_dataset net e hout
    simp [slotEmpty, expectedFrom, ht, hval, okD]
  | dataUseRegister =>
    obtain rfl : search_data_uses_request q none none p pp = req :=
      Option.some.inj hreq
    have hval : (search_data_uses q none none p pp net).2 = .ok [] :=
      runSearch_err _ parse_data_use net e hout
    simp [slotEmpty, expectedFrom, ht, hval, okD]
  | publication =>
    obtain rfl : search_publications_request q p pp = req :=
      Option.some.inj hreq
    have hval : (search_publications q p pp net).2 = .ok [] :=
      runSearch_err _ parse_publication net e hout
    simp [slotEmpty, expectedFrom, ht, hval, okD]
  | tool =>
    obtain rfl : search_tools_request q p pp = req := Option.some.inj hreq
    have hval : (search_tools q p pp net).2 = .ok [] :=
      runSearch_err _ parse_tool net e hout
    simp [slotEmpty, expectedFrom, ht, hval, okD]
  | collection =>
    obtain rfl : search_collections_request q p pp = req := Option.some.inj hreq
    have hval : (search_collections q p pp net).2 = .ok [] :=
      runSearch_err _ parse_collection net e hout
    simp [slotEmpty, expectedFrom, ht, hval, okD]
  | dataProvider => trivial

theorem expectedFrom_matches (q : String) (types : List ResourceType)
    (f : Option SearchFilters) (p pp : Nat) (net : Request → TransportOutcome)
    (t : ResourceType) (ht : t ∈ types) :
    slotMatches q f p pp net (expectedFrom q f p pp net {} types) t := by
  cases t with
  | dataset => intro l hl; simp [expectedFrom, ht, hl, okD, slotMatches]
  | dataUseRegister => intro l hl; simp [expectedFrom, ht, hl, okD, slotMatches]
  | publication => intro l hl; simp [expectedFrom, ht, hl, okD, slotMatches]
  | tool => intro l hl; simp [expectedFrom, ht, hl, okD, slotMatches]
  | collection => intro l hl; simp [expectedFrom, ht, hl, okD, slotMatches]
  | dataProvider => trivial

theorem mem_reqLog (q : String) (f : Option SearchFilters) (p pp : Nat) :
    ∀ (types : List ResourceType) (t : ResourceType) (r : Request),
    t ∈ types → requestOf q f p pp t = some r → r ∈ reqLog q f p pp types := by
  intro types
  induction types with
  | nil => intro t r ht; cases ht
  | cons t0 ts ih =>
    intro t r ht hr
    rcases List.mem_cons.mp ht with rfl | h2
    · exact List.mem_append_left _ (by simp [hr])
    · exact List.mem_append_right _ (ih t r h2 hr)

/-- Claim C1: in a unified search over any requested resource types, a
    per-type search call that fails with any GatewayAPIError subtype
    (e.g. a 503) leaves that type's slot as the empty list, every
    requested type's request still reaches the network, every successful
    type's results are kept, and the unified search returns instead of
    raising. (The `typeOkB` hypothesis says each per-type call completes
    without a Python-level error; a failing transport always completes,
    because the client swallows GatewayAPIError into an empty list.) -/
theorem c1_unified_search_best_effort (q : String) (types : List ResourceType)
    (f : Option SearchFilters) (p pp : Nat) (net : Request → TransportOutcome)
    (t : ResourceType) (ht : t ∈ types)
    (hok : ∀ t' ∈ types, typeOkB q f p pp net t' = true)
    (hfail : apiFailedB q f p pp net t = true) :
    ∃ sr log, gatewaySearch q types f p pp net = .ok (sr, log) ∧
      slotEmpty sr t ∧
      (∀ t' ∈ types, ∀ r, requestOf q f p pp t' = some r → r ∈ log) ∧
      (∀ t' ∈ types, slotMatches q f p pp net sr t') := by
  refine ⟨expectedFrom q f p pp net {} types, reqLog q f p pp types,
    gatewaySearch_ok q types f p pp net hok,
    apiFailed_slotEmpty q types f p pp net t ht hfail,
    fun t' ht' r hr => mem_reqLog q f p pp types t' r ht' hr,
    fun t' ht' => expectedFrom_matches q types f p pp net t' ht'⟩

/-- Network fake for the C1 witness: the dataset search gets a 503, the
    data-use search a valid one-item page. -/
def duPage : HttpResponse :=
  { status := 200,
    jsonBody := .obj [("data", .arr
      [.obj [("id", .str "du1"), ("project_title", .str "P")]])] }

def netC1 : Request → TransportOutcome := fun req =>
  match jlookup req.params "type" with
  | some (.str "dataset") => .resp { status := 503 }
  | _ => .resp duPage

/-- Projections used by the concrete witnesses. -/
def searchOutDatasets (r : Except PyErr (SearchResult × List Request)) :
    List Dataset :=
  match r with
  | .ok (sr, _) => sr.datasets
  | .error _ => []

def searchOutDataUses (r : Except PyErr (SearchResult × List Request)) :
    List DataUseRegister :=
  match r with
  | .ok (sr, _) => sr.data_uses
  | .error _ => []

def searchOutLog (r : Except PyErr (SearchResult × List Request)) :
    List Request :=
  match r with
  | .ok (_, log) => log
  | .error _ => []

/-- The data-use record netC1's page parses to. -/
def duParsed : DataUseRegister :=
  { id := .str "du1", project_title := .str "P",
    raw := .obj [("id", .str "du1"), ("project_title", .str "P")] }

theorem c1_witness :
    searchOutDatasets
      (gatewaySearch "diabetes" [.dataset, .dataUseRegister] none 1 25 netC1) = [] ∧
    searchOutDataUses
      (gatewaySearch "diabetes" [.dataset, .dataUseRegister] none 1 25 netC1) =
      [duParsed] := by
  obtain ⟨sr, log, hrun, hempty, _, hmatch⟩ :=
    c1_unified_search_best_effort "diabetes" [.dataset, .dataUseRegister]
      none 1 25 netC1 .dataset (by decide) (by decide) (by decide)
  have hdu : (search_data_uses "diabetes" none none 1 25 netC1).2 =
      .ok [duParsed] := by decide
  have h2 := hmatch .dataUseRegister (by decide) [duParsed] hdu
  rw [hrun]
  exact ⟨hempty, h2⟩

/-! ### Claim C2 -/

def pubPage : HttpResponse :=
  { status := 200, jsonBody := .obj [("data", .arr [.obj [("id", .str "p1")]])] }

def netPagePub : Request → TransportOutcome := fun _ => .resp pubPage

/-- Claim C2 counterexample: the claim fails on the code. "ab" is a
    non-empty query with fewer than 3 non-whitespace characters, yet
    search_publications issues its network request and returns the page's
    publication (not the empty list); and search_datasets with " ab"
    (2 non-whitespace characters but raw length 3) also issues a request,
    because the guard counts every character. -/
theorem c2_counterexample :
    ("ab" ≠ "" ∧ "ab".length < 3) ∧
    (search_publications "ab" 1 25 netPagePub).2 ≠ .ok [] ∧
    (search_datasets " ab" none 1 25 netPagePub).1.isSome = true := by
  refine ⟨⟨by decide, by decide⟩, by decide, by decide⟩

/-- Claim C2 (amended): only search_datasets enforces the client-side
    minimum, and it counts every character of the query (whitespace
    included): a non-empty query of raw length < 3 short-circuits to []
    with no network request, while search_data_uses, search_publications,
    search_tools and search_collections always issue theirs — so a
    default unified search with such a query logs exactly the four
    non-dataset requests and an empty dataset slot. -/
theorem c2_min_length_guard (q : String) (f : Option SearchFilters)
    (p pp : Nat) (net : Request → TransportOutcome)
    (hq : q ≠ "") (hlen : q.length < 3) :
    search_datasets q f p pp net = (none, .ok []) ∧
    (search_data_uses q none none p pp net).1 =
      search_data_uses_request q none none p pp ∧
    (search_publications q p pp net).1 = search_publications_request q p pp ∧
    (search_tools q p pp net).1 = search_tools_request q p pp ∧
    (search_collections q p pp net).1 = search_collections_request q p pp ∧
    ∀ sr log, gatewaySearch q defaultResourceTypes f p pp net = .ok (sr, log) →
      sr.datasets = [] ∧
      log = [search_data_uses_request q none none p pp,
             search_publications_request q p pp,
             search_tools_request q p pp,
             search_collections_request q p pp] := by
  have hguard : search_datasets_request q f p pp = none := by
    unfold search_datasets_request
    simp [hq, hlen]
  refine ⟨?_, rfl, rfl, rfl, rfl, ?_⟩
  · unfold search_datasets
    rw [hguard]
  · intro sr log h
    obtain ⟨_, hsr, hlog⟩ := gatewaySearch_inv q _ f p pp net sr log h
    have hds : (search_datasets q f p pp net).2 = .ok [] := by
      unfold search_datasets
      rw [hguard]
    constructor
    · rw [hsr]
      simp [expectedFrom, defaultResourceTypes, hds, okD]
    · rw [hlog]
      simp [reqLog, requestOf, defaultResourceTypes, hguard]

theorem c2_witness :
    search_datasets "ab" none 1 25 netPagePub = (none, .ok []) ∧
    (search_data_uses "ab" none none 1 25 netPagePub).1 =
      search_data_uses_request "ab" none none 1 25 ∧
    (search_publications "ab" 1 25 netPagePub).1 =
      search_publications_request "ab" 1 25 ∧
    (search_tools "ab" 1 25 netPagePub).1 = search_tools_request "ab" 1 25 ∧
    (search_collections "ab" 1 25 netPagePub).1 =
      search_collections_request "ab" 1 25 ∧
    searchOutDatasets
      (gatewaySearch "ab" defaultResourceTypes none 1 25 netPagePub) = [] ∧
    searchOutLog (gatewaySearch "ab" defaultResourceTypes none 1 25 netPagePub) =
      [search_data_uses_request "ab" none none 1 25,
       search_publications_request "ab" 1 25,
       search_tools_request "ab" 1 25,
       search_collections_request "ab" 1 25] := by
  have h := c2_min_length_guard "ab" none 1 25 netPagePub (by decide) (by decide)
  have hok : ∀ t ∈ defaultResourceTypes,
      typeOkB "ab" none 1 25 netPagePub t = true := by decide
  have hrun := gatewaySearch_ok "ab" defaultResourceTypes none 1 25 netPagePub hok
  have h6 := h.2.2.2.2.2 _ _ hrun
  refine ⟨h.1, h.2.1, h.2.2.1, h.2.2.2.1, h.2.2.2.2.1, ?_, ?_⟩
  · rw [hrun]
    exact h6.1
  · rw [hrun]
    exact h6.2

/-! ### Claim C10 -/

/-- Claim C10: in the unified search only the dataset call receives the
    structured filters. The data-use, publication, tool and collection
    requests consist of the term and pagination alone (no filter keys),
    the dataset request's body is the base dict updated with
    filters.to_dict(), and the non-dataset result slots are identical
    under any two filter sets. -/
theorem c10_filters_only_reach_datasets (q : String) (types : List ResourceType)
    (p pp : Nat) (net : Request → TransportOutcome) (f1 f2 : SearchFilters) :
    search_data_uses_request q none none p pp =
      { method := "POST", endpoint := "/search",
        params := [("search", .str q), ("type", .str "dataUseRegister"),
                   ("page", .num p), ("perPage", .num pp)] } ∧
    search_publications_request q p pp =
      { method := "POST", endpoint := "/search",
        params := [("search", .str q), ("type", .str "publication"),
                   ("page", .num p), ("perPage", .num pp)] } ∧
    search_tools_request q p pp =
      { method := "POST", endpoint := "/search",
        params := [("search", .str q), ("type", .str "tool"),
                   ("page", .num p), ("perPage", .num pp)] } ∧
    search_collections_request q p pp =
      { method := "POST", endpoint := "/search",
        params := [("search", .str q), ("type", .str "collection"),
                   ("page", .num p), ("perPage", .num pp)] } ∧
    (¬(q ≠ "" ∧ q.length < 3) →
      search_datasets_request q (some f1) p pp =
        some { method := "POST", endpoint := "/search",
               params := dictUpdate
                 [("search", .str q), ("type", .str "dataset"),
                  ("page", .num p), ("perPage", .num pp)] f1.to_dict }) ∧
    (∀ sr1 log1 sr2 log2,
       gatewaySearch q types (some f1) p pp net = .ok (sr1, log1) →
       gatewaySearch q types (some f2) p pp net = .ok (sr2, log2) →
       sr1.data_uses = sr2.data_uses ∧ sr1.publications = sr2.publications ∧
       sr1.tools = sr2.tools ∧ sr1.collections = sr2.collections) := by
  refine ⟨rfl, rfl, rfl, rfl, ?_, ?_⟩
  · intro hq
    unfold search_datasets_request
    rw [if_neg]
    simp only [Bool.and_eq_true, decide_eq_true_eq, not_and]
    intro h1
    exact fun h2 => hq ⟨h1, h2⟩
  · intro sr1 log1 sr2 log2 h1 h2
    obtain ⟨_, hsr1, _⟩ := gatewaySearch_inv q types (some f1) p pp net sr1 log1 h1
    obtain ⟨_, hsr2, _⟩ := gatewaySearch_inv q types (some f2) p pp net sr2 log2 h2
    rw [hsr1, hsr2]
    exact ⟨rfl, rfl, rfl, rfl⟩

theorem c10_witness :
    search_data_uses_request "diabetes" none none 1 25 =
      { method := "POST", endpoint := "/search",
        params := [("search", .str "diabetes"), ("type", .str "dataUseRegister"),
                   ("page", .num 1), ("perPage", .num 25)] } ∧
    search_datasets_request "diabetes"
        (some { publisher := ["CPRD"], geographic_coverage := ["Wales"] }) 1 25 =
      some { method := "POST", endpoint := "/search",
             params := dictUpdate
               [("search", .str "diabetes"), ("type", .str "dataset"),
                ("page", .num 1), ("perPage", .num 25)]
               (SearchFilters.to_dict
                 { publisher := ["CPRD"], geographic_coverage := ["Wales"] }) } ∧
    searchOutDataUses (gatewaySearch "diabetes" [.dataset, .dataUseRegister]
        (some { publisher := ["CPRD"], geographic_coverage := ["Wales"] })
        1 25 netC1) =
      searchOutDataUses (gatewaySearch "diabetes" [.dataset, .dataUseRegister]
        (some {}) 1 25 netC1) := by
  have h := c10_filters_only_reach_datasets "diabetes"
    [.dataset, .dataUseRegister] 1 25 netC1
    { publisher := ["CPRD"], geographic_coverage := ["Wales"] } {}
  refine ⟨h.1, h.2.2.2.2.1 (by decide), ?_⟩
  have hok1 : ∀ t ∈ [ResourceType.dataset, ResourceType.dataUseRegister],
      typeOkB "diabetes"
        (some { publisher := ["CPRD"], geographic_coverage := ["Wales"] })
        1 25 netC1 t = true := by decide
  have hok2 : ∀ t ∈ [ResourceType.dataset, ResourceType.dataUseRegister],
      typeOkB "diabetes" (some {}) 1 25 netC1 t = true := by decide
  have hrun1 := gatewaySearch_ok "diabetes" [.dataset, .dataUseRegister]
    (some { publisher := ["CPRD"], geographic_coverage := ["Wales"] }) 1 25 netC1 hok1
  have hrun2 := gatewaySearch_ok "diabetes" [.dataset, .dataUseRegister]
    (some {}) 1 25 netC1 hok2
  have h6 := h.2.2.2.2.2 _ _ _ _ hrun1 hrun2
  rw [hrun1, hrun2]
  exact h6.1

/-! ### Mapper characterization on dict inputs (claims C4, C5) -/

@[simp] theorem exceptOk_bind {ε α β} (a : α) (g : α → Except ε β) :
    (Except.ok a >>= g) = g a := rfl

@[simp] theorem exceptError_bind {ε α β} (e : ε) (g : α → Except ε β) :
    ((Except.error e : Except ε α) >>= g) = .error e := rfl

@[simp] theorem dictGet_obj (fs : List (String × JValue)) (k : String)
    (d : JValue) : dictGet (.obj fs) k d = .ok ((jlookup fs k).getD d) := rfl

@[simp] theorem jlookup_nil (k : String) : jlookup [] k = none := rfl

@[simp] theorem parse_team_short_null : parse_team_short .null = .ok none := rfl

@[simp] theorem parse_team_pid_null : parse_team_pid .null = .ok none := rfl

/-- The publication mapper evaluated on an arbitrary dict: every probe is
    a `get` on the input, so it always succeeds, and every field is the
    snake_case value, else the camelCase value, else the default. -/
theorem parse_publication_obj (fs : List (String × JValue)) :
    parse_publication (.obj fs) = .ok
      { id := (jlookup fs "id").getD (.str ""),
        paper_title :=
          (jlookup fs "paper_title").getD ((jlookup fs "paperTitle").getD (.str "")),
        authors := (jlookup fs "authors").getD .null,
        year_of_publication :=
          (jlookup fs "year_of_publication").getD
            ((jlookup fs "yearOfPublication").getD .null),
        journal_name :=
          (jlookup fs "journal_name").getD ((jlookup fs "journalName").getD .null),
        paper_doi :=
          (jlookup fs "paper_doi").getD ((jlookup fs "paperDoi").getD .null),
        publication_type :=
          (jlookup fs "publication_type").getD
            ((jlookup fs "publicationType").getD .null),
        abstract := (jlookup fs "abstract").getD .null,
        full_text_url := (jlookup fs "full_text_url").getD .null,
        url := (jlookup fs "url").getD .null,
        status := (jlookup fs "status").getD .null,
        raw := .obj fs } := by
  unfold parse_publication
  simp only [dictGet0, dictGet_obj, exceptOk_bind]
  rfl

/-- The tool mapper on a dict with no team key. -/
theorem parse_tool_obj (fs : List (String × JValue))
    (hteam : jlookup fs "team" = none) :
    parse_tool (.obj fs) = .ok
      { id := (jlookup fs "id").getD (.str ""),
        name := (jlookup fs "name").getD (.str ""),
        description := (jlookup fs "description").getD .null,
        url := (jlookup fs "url").getD .null,
        license := (jlookup fs "license").getD .null,
        tech_stack := (jlookup fs "tech_stack").getD .null,
        programming_languages :=
          (jlookup fs "programming_languages").getD (.arr []),
        tags := (jlookup fs "tags").getD (.arr []),
        team := none,
        enabled := (jlookup fs "enabled").getD (.bool true),
        raw := .obj fs } := by
  unfold parse_tool
  simp only [dictGet0, dictGet_obj, exceptOk_bind, hteam, Option.getD_none,
    parse_team_short_null]
  rfl

/-- The collection mapper on a dict with no team key. -/
theorem parse_collection_obj (fs : List (String × JValue))
    (hteam : jlookup fs "team" = none) :
    parse_collection (.obj fs) = .ok
      { id := (jlookup fs "id").getD (.str ""),
        name := (jlookup fs "name").getD (.str ""),
        description := (jlookup fs "description").getD .null,
        keywords := (jlookup fs "keywords").getD (.arr []),
        enabled := (jlookup fs "enabled").getD (.bool true),
        status := (jlookup fs "status").getD .null,
        pub := (jlookup fs "public").getD (.bool true),
        team := none,
        raw := .obj fs } := by
  unfold parse_collection
  simp only [dictGet0, dictGet_obj, exceptOk_bind, hteam, Option.getD_none,
    parse_team_short_null]
  rfl

/-- The data-use mapper on a dict with no team key. -/
theorem parse_data_use_obj (fs : List (String × JValue))
    (hteam : jlookup fs "team" = none) :
    parse_data_use (.obj fs) = .ok
      { id := (jlookup fs "id").getD (.str ""),
        project_id_text := (jlookup fs "project_id_text").getD .null,
        project_title :=
          (jlookup fs "project_title").getD
            ((jlookup fs "projectTitle").getD (.str "")),
        organisation_id := (jlookup fs "organisation_id").getD .null,
        organisation_name :=
          (jlookup fs "organisation_name").getD
            ((jlookup fs "organisationName").getD .null),
        organisation_sector :=
          sectorOf ((jlookup fs "organisation_sector").getD .null),
        project_start_date :=
          (jlookup fs "project_start_date").getD
            ((jlookup fs "projectStartDate").getD .null),
        project_end_date :=
          (jlookup fs "project_end_date").getD
            ((jlookup fs "projectEndDate").getD .null),
        access_date :=
          (jlookup fs "access_date").getD ((jlookup fs "accessDate").getD .null),
        latest_approval_date :=
          (jlookup fs "latest_approval_date").getD
            ((jlookup fs "latestApprovalDate").getD .null),
        lay_summary :=
          (jlookup fs "lay_summary").getD ((jlookup fs "laySummary").getD .null),
        technical_summary :=
          (jlookup fs "technical_summary").getD
            ((jlookup fs "technicalSummary").getD .null),
        public_benefit_statement :=
          (jlookup fs "public_benefit_statement").getD
            ((jlookup fs "publicBenefitStatement").getD .null),
        datasets :=
          (jlookup fs "datasets").getD ((jlookup fs "datasetTitles").getD (.arr [])),
        keywords := (jlookup fs "keywords").getD (.arr []),
        access_type := accessTypeOf ((jlookup fs "access_type").getD .null),
        team := none,
        status := (jlookup fs "status").getD .null,
        raw := .obj fs } := by
  unfold parse_data_use
  simp only [dictGet0, dictGet_obj, exceptOk_bind, hteam, Option.getD_none,
    parse_team_short_null]
  rfl

/-- The dataset mapper on a dict with no metadata, team or status keys. -/
theorem parse_dataset_obj_defaults (fs : List (String × JValue))
    (hlm : jlookup fs "latest_metadata" = none)
    (hmeta : jlookup fs "metadata" = none)
    (hteam : jlookup fs "team" = none)
    (hstatus : jlookup fs "status" = none) :
    parse_dataset (.obj fs) = .ok
      { id := (jlookup fs "id").getD (.str ""),
        pid := (jlookup fs "pid").getD .null,
        status := .active,
        metadata := none,
        team_id := (jlookup fs "team_id").getD .null,
        team := none,
        user_id := (jlookup fs "user_id").getD .null,
        durs_count := (jlookup fs "durs_count").getD (.num 0),
        publications_count := (jlookup fs "publications_count").getD (.num 0),
        tools_count := (jlookup fs "tools_count").getD (.num 0),
        collections_count := (jlookup fs "collections_count").getD (.num 0),
        is_cohort_discovery := (jlookup fs "is_cohort_discovery").getD (.bool false),
        versions := (jlookup fs "versions").getD (.arr []),
        raw := .obj fs } := by
  unfold parse_dataset
  simp only [dictGet0, dictGet_obj, exceptOk_bind, hlm, hmeta, hteam, hstatus,
    Option.getD_none, jlookup_nil, parse_team_pid_null, truthy, List.isEmpty_nil,
    Bool.not_true, Bool.false_eq_true, if_false]
  rfl

/-! ### Claim C4 -/

/-- Claim C4 counterexample: a raw dataset map whose status field holds a
    string outside the vocabulary makes the dataset mapper raise
    ValueError — the status does not fall back to active, so the claimed
    total conversion fails for the dataset mapper. -/
theorem c4_counterexample :
    parse_dataset (.obj [("status", .str "published")]) = .error .valueError := by
  rfl

/-- Claim C4 (amended): the data-use mapper's enum conversions are total —
    any non-empty string outside the sector vocabulary falls back to
    Other, any such string outside the access-type vocabulary falls back
    to null, the mapper's sector/access fields are always these total
    conversions of the raw values, and the mapper does not raise on their
    account — but the dataset mapper has no fallback: status defaults to
    active only when the field is absent, and a present out-of-vocabulary
    status string raises ValueError. -/
theorem c4_enum_fallbacks (s : String) (hs : s ≠ "")
    (hsec : s ∉ ["NHS", "Academia", "Government", "Charity", "Commercial", "Other"])
    (hacc : s ∉ ["open", "safeguarded", "controlled"])
    (hstat : s ∉ ["draft", "pending", "active", "rejected", "archived"]) :
    sectorOf (.str s) = .enumVal .other ∧
    accessTypeOf (.str s) = .rawVal .null ∧
    (∀ fs d, parse_data_use (.obj fs) = .ok d →
       d.organisation_sector =
         sectorOf ((jlookup fs "organisation_sector").getD .null) ∧
       d.access_type = accessTypeOf ((jlookup fs "access_type").getD .null)) ∧
    (∀ fs, jlookup fs "team" = none → ∃ d, parse_data_use (.obj fs) = .ok d) ∧
    parse_dataset (.obj [("status", .str s)]) = .error .valueError := by
  simp only [List.mem_cons, List.not_mem_nil, or_false] at hsec hacc hstat
  push_neg at hsec hacc hstat
  obtain ⟨h1, h2, h3, h4, h5, h6⟩ := hsec
  obtain ⟨a1, a2, a3⟩ := hacc
  obtain ⟨t1, t2, t3, t4, t5⟩ := hstat
  refine ⟨?_, ?_, ?_, ?_, ?_⟩
  · simp [sectorOf, truthy, hs, OrganisationSector.fromValue?, h1, h2, h3, h4, h5, h6]
  · simp [accessTypeOf, truthy, hs, AccessType.fromValue?, a1, a2, a3]
  · intro fs d hd
    unfold parse_data_use at hd
    simp only [dictGet0, dictGet_obj, exceptOk_bind] at hd
    cases hteam : parse_team_short ((jlookup fs "team").getD .null) with
    | error e =>
      rw [hteam] at hd
      simp at hd
    | ok t =>
      rw [hteam] at hd
      simp only [exceptOk_bind] at hd
      have hd2 := Except.ok.inj hd
      rw [← hd2]
      exact ⟨rfl, rfl⟩
  · intro fs hteam
    exact ⟨_, parse_data_use_obj fs hteam⟩
  · unfold parse_dataset
    have e1 : jlookup [("status", JValue.str s)] "latest_metadata" = none := rfl
    have e2 : jlookup [("status", JValue.str s)] "metadata" = none := rfl
    have e3 : jlookup [("status", JValue.str s)] "team" = none := rfl
    have e4 : jlookup [("status", JValue.str s)] "id" = none := rfl
    have e5 : jlookup [("status", JValue.str s)] "pid" = none := rfl
    have e6 : jlookup [("status", JValue.str s)] "status" = some (.str s) := rfl
    simp only [dictGet0, dictGet_obj, exceptOk_bind, e1, e2, e3, e4, e5, e6,
      Option.getD_none, Option.getD_some, jlookup_nil, truthy, List.isEmpty_nil,
      Bool.not_true, Bool.false_eq_true, if_false, parse_team_pid_null]
    simp [DatasetStatus.ofValue, t1, t2, t3, t4, t5]

def durSectorOut (r : Except PyErr DataUseRegister) :
    Option (PyEnumOr OrganisationSector) :=
  match r with
  | .ok d => some d.organisation_sector
  | .error _ => none

def durAccessOut (r : Except PyErr DataUseRegister) :
    Option (PyEnumOr AccessType) :=
  match r with
  | .ok d => some d.access_type
  | .error _ => none

theorem c4_witness :
    sectorOf (.str "Pharma") = .enumVal .other ∧
    accessTypeOf (.str "Pharma") = .rawVal .null ∧
    durSectorOut (parse_data_use (.obj [("organisation_sector", .str "Pharma"),
      ("access_type", .str "Pharma")])) = some (.enumVal .other) ∧
    durAccessOut (parse_data_use (.obj [("organisation_sector", .str "Pharma"),
      ("access_type", .str "Pharma")])) = some (.rawVal .null) ∧
    parse_dataset (.obj [("status", .str "Pharma")]) = .error .valueError := by
  have h := c4_enum_fallbacks "Pharma" (by decide) (by decide) (by decide)
    (by decide)
  obtain ⟨d, hd⟩ := h.2.2.2.1
    [("organisation_sector", .str "Pharma"), ("access_type", .str "Pharma")] rfl
  have hfield := h.2.2.1 _ d hd
  have hsec : (jlookup [("organisation_sector", JValue.str "Pharma"),
      ("access_type", JValue.str "Pharma")] "organisation_sector").getD .null =
      .str "Pharma" := rfl
  have hatype : (jlookup [("organisation_sector", JValue.str "Pharma"),
      ("access_type", JValue.str "Pharma")] "access_type").getD .null =
      .str "Pharma" := rfl
  refine ⟨h.1, h.2.1, ?_, ?_, h.2.2.2.2⟩
  · rw [hd]
    show some d.organisation_sector = some (PyEnumOr.enumVal OrganisationSector.other)
    rw [hfield.1, hsec, h.1]
  · rw [hd]
    show some d.access_type = some (PyEnumOr.rawVal JValue.null)
    rw [hfield.2, hatype, h.2.1]

/-! ### Claim C5 -/

/-- Claim C5 counterexample: the "pid" field is absent in both spellings
    in this raw map, yet the dataset mapper raises instead of resolving
    the missing field to its default and returning — the mappers are not
    total in the presence of an out-of-vocabulary status value, so the
    claim as stated (quantified over every map with an absent field)
    fails. -/
theorem c5_counterexample :
    jlookup [("status", .str "retired")] "pid" = none ∧
    parse_dataset (.obj [("status", .str "retired")]) = .error .valueError :=
  ⟨rfl, rfl⟩

/-- Claim C5 (amended): a field missing in both its snake_case and
    camelCase spellings resolves to the modeled default, and absence never
    causes a raise: the publication mapper is total on dicts; the
    data-use, tool and collection mappers are total on dicts whose only
    raising probe (a truthy non-dict team) is absent; the dataset mapper
    with status, metadata and team absent succeeds with status active and
    the remaining defaults. A raise can only be caused by a present
    ill-typed or out-of-vocabulary value, never by a missing field. -/
theorem c5_missing_fields_default :
    (∀ fs, jlookup fs "paper_title" = none → jlookup fs "paperTitle" = none →
       ∃ p, parse_publication (.obj fs) = .ok p ∧ p.paper_title = .str "" ∧
         (jlookup fs "authors" = none → p.authors = .null)) ∧
    (∀ fs, jlookup fs "team" = none →
       ∃ t, parse_tool (.obj fs) = .ok t ∧ t.team = none ∧
         (jlookup fs "name" = none → t.name = .str "") ∧
         (jlookup fs "tags" = none → t.tags = .arr [])) ∧
    (∀ fs, jlookup fs "team" = none →
       ∃ c, parse_collection (.obj fs) = .ok c ∧
         (jlookup fs "keywords" = none → c.keywords = .arr []) ∧
         (jlookup fs "public" = none → c.pub = .bool true)) ∧
    (∀ fs, jlookup fs "team" = none →
       ∃ d, parse_data_use (.obj fs) = .ok d ∧
         (jlookup fs "lay_summary" = none → jlookup fs "laySummary" = none →
            d.lay_summary = .null) ∧
         (jlookup fs "datasets" = none → jlookup fs "datasetTitles" = none →
            d.datasets = .arr []) ∧
         (jlookup fs "organisation_sector" = none →
            d.organisation_sector = .rawVal .null)) ∧
    (∀ fs, jlookup fs "status" = none → jlookup fs "latest_metadata" = none →
       jlookup fs "metadata" = none → jlookup fs "team" = none →
       ∃ d, parse_dataset (.obj fs) = .ok d ∧ d.status = .active ∧
         d.metadata = none ∧
         (jlookup fs "pid" = none → d.pid = .null) ∧
         (jlookup fs "durs_count" = none → d.durs_count = .num 0)) := by
  refine ⟨?_, ?_, ?_, ?_, ?_⟩
  · intro fs h1 h2
    refine ⟨_, parse_publication_obj fs, ?_, ?_⟩
    · simp [h1, h2]
    · intro h3
      simp [h3]
  · intro fs hteam
    refine ⟨_, parse_tool_obj fs hteam, rfl, ?_, ?_⟩
    · intro h3
      simp [h3]
    · intro h3
      simp [h3]
  · intro fs hteam
    refine ⟨_, parse_collection_obj fs hteam, ?_, ?_⟩
    · intro h3
      simp [h3]
    · intro h3
      simp [h3]
  · intro fs hteam
    refine ⟨_, parse_data_use_obj fs hteam, ?_, ?_, ?_⟩
    · intro h3 h4
      simp [h3, h4]
    · intro h3 h4
      simp [h3, h4]
    · intro h3
      simp [h3, sectorOf, truthy]
  · intro fs hstatus hlm hmeta hteam
    refine ⟨_, parse_dataset_obj_defaults fs hlm hmeta hteam hstatus, rfl, rfl, ?_, ?_⟩
    · intro h3
      simp [h3]
    · intro h3
      simp [h3]

def pubTitleOut (r : Except PyErr Publication) : Option JValue :=
  match r with
  | .ok p => some p.paper_title
  | .error _ => none

def dsStatusOut (r : Except PyErr Dataset) : Option DatasetStatus :=
  match r with
  | .ok d => some d.status
  | .error _ => none

theorem c5_witness :
    exceptOkB (parse_publication (.obj [])) = true ∧
    pubTitleOut (parse_publication (.obj [])) = some (.str "") ∧
    exceptOkB (parse_tool (.obj [])) = true ∧
    exceptOkB (parse_collection (.obj [])) = true ∧
    exceptOkB (parse_data_use (.obj [])) = true ∧
    durSectorOut (parse_data_use (.obj [])) = some (.rawVal .null) ∧
    dsStatusOut (parse_dataset (.obj [])) = some .active := by
  have h := c5_missing_fields_default
  obtain ⟨p, hp, hp1, _⟩ := h.1 [] rfl rfl
  obtain ⟨t, ht, _, _, _⟩ := h.2.1 [] rfl
  obtain ⟨c, hc, _, _⟩ := h.2.2.1 [] rfl
  obtain ⟨d, hdu, _, _, hdu3⟩ := h.2.2.2.1 [] rfl
  obtain ⟨ds, hds, hds1, _, _, _⟩ := h.2.2.2.2 [] rfl rfl rfl rfl
  rw [hp, ht, hc, hdu, hds]
  refine ⟨rfl, ?_, rfl, rfl, rfl, ?_, ?_⟩
  · show some p.paper_title = some (JValue.str "")
    rw [hp1]
  · show some d.organisation_sector = some (PyEnumOr.rawVal JValue.null)
    rw [hdu3 rfl]
  · show some ds.status = some DatasetStatus.active
    rw [hds1]

/-! ### Claim C8 -/

@[simp] theorem exceptMapError_ok {ε ε2 α} (f : ε → ε2) (a : α) :
    (Except.ok a : Except ε α).mapError f = .ok a := rfl

@[simp] theorem exceptMapError_error {ε ε2 α} (f : ε → ε2) (e : ε) :
    (Except.error e : Except ε α).mapError f = .error (f e) := rfl

/-- The envelope-unwrap and parse tail of get_dataset can only fail with a
    plain Python error, never with a Gateway error. -/
theorem envelope_no_gateway (response : JValue) (ge : GatewayError) :
    ((dictGet response "data" response).mapError ClientErr.py >>=
      fun data => (parse_dataset data).mapError ClientErr.py) ≠
    .error (.gateway ge) := by
  cases h1 : dictGet response "data" response with
  | error e => simp [Except.mapError, h1]
  | ok v =>
    cases h2 : parse_dataset v with
    | error e => simp [Except.mapError, h1, h2]
    | ok d => simp [Except.mapError, h1, h2]

theorem gatewayRequest_resp (ep : String) (r : HttpResponse) :
    gatewayRequest ep (.resp r) =
      (if r.status == 401 then .error (.auth (buildUrl ep))
       else if r.status == 404 then
         .error (.notFound "Resource" ep (buildUrl ep))
       else if r.status == 429 then
         .error (.rateLimit r.retryAfter (buildUrl ep))
       else if r.status ≥ 500 then
         .error (.server ("Server error: " ++ toString r.status) r.status
           (buildUrl ep))
       else if r.status ≥ 400 then
         .error (.api ("Request failed: " ++ toString r.status) (some r.status)
           (if r.text ≠ "" then r.jsonBody else .obj []) (buildUrl ep))
       else if pyIn "application/json" r.contentType then .ok r.jsonBody
       else if pyIn "text/csv" r.contentType then
         .ok (.obj [("csv_data", .str r.text), ("content_type", .str "csv")])
       else .ok (.obj [("data", .str r.text),
         ("content_type", .str r.contentType)])) := rfl

/-- Claim C8 counterexample: a 404 on get_dataset "123" raises a
    GatewayNotFoundError whose resource_type is the placeholder string
    "Resource" (not the dataset resource type) and whose resource_id is
    the endpoint path "/datasets/123" (not the requested id "123"). -/
theorem c8_counterexample :
    get_dataset "123" (.resp { status := 404 }) =
      .error (.gateway (.notFound "Resource" "/datasets/123"
        (buildUrl "/datasets/123"))) ∧
    "/datasets/123" ≠ "123" ∧ "Resource" ≠ "dataset" ∧ "Resource" ≠ "Dataset" :=
  ⟨rfl, by decide, by decide, by decide⟩

/-- Claim C8 (amended): get_dataset raises GatewayNotFoundError exactly
    when the HTTP response status is 404; the raised error carries the
    placeholder resource type "Resource" and the endpoint path
    "/datasets/{id}" (which embeds the requested id) rather than the bare
    type and id; and every other transport error propagates to the caller
    unchanged. -/
theorem c8_not_found (datasetId : String) (r : HttpResponse) :
    ((∃ rt rid url, get_dataset datasetId (.resp r) =
        .error (.gateway (.notFound rt rid url))) → r.status = 404) ∧
    (r.status = 404 → get_dataset datasetId (.resp r) =
      .error (.gateway (.notFound "Resource" ("/datasets/" ++ datasetId)
        (buildUrl ("/datasets/" ++ datasetId))))) ∧
    (∀ out e, gatewayRequest ("/datasets/" ++ datasetId) out = .error e →
      get_dataset datasetId out = .error (.gateway e)) := by
  refine ⟨?_, ?_, ?_⟩
  · rintro ⟨rt, rid, url, herr⟩
    unfold get_dataset at herr
    rw [gatewayRequest_resp] at herr
    split_ifs at herr with h1 h2 h3 h4 h5 h6 h7 h8
    · simp [Except.mapError] at herr
    · exact beq_iff_eq.mp h2
    · simp [Except.mapError] at herr
    · simp [Except.mapError] at herr
    · simp [Except.mapError] at herr
    · simp [Except.mapError] at herr
    all_goals
      simp only [exceptMapError_ok, exceptOk_bind] at herr
      exact absurd herr (envelope_no_gateway _ _)
  · intro h404
    have hreq : gatewayRequest ("/datasets/" ++ datasetId) (.resp r) =
        .error (.notFound "Resource" ("/datasets/" ++ datasetId)
          (buildUrl ("/datasets/" ++ datasetId))) := by
      rw [gatewayRequest_resp, h404]
      rfl
    unfold get_dataset
    rw [hreq]
    rfl
  · intro out e h
    unfold get_dataset
    rw [h]
    rfl

theorem c8_witness :
    get_dataset "123" (.resp { status := 404 }) =
      .error (.gateway (.notFound "Resource" "/datasets/123"
        (buildUrl "/datasets/123"))) ∧
    get_dataset "123" .timeoutExc =
      .error (.gateway (.timeout 30 (buildUrl "/datasets/123"))) := by
  have h := c8_not_found "123" { status := 404 }
  exact ⟨h.2.1 rfl,
    h.2.2 .timeoutExc (.timeout 30 (buildUrl "/datasets/123")) rfl⟩

/-! ### Claim C3 -/

/-- Claim C3 counterexample: for the query "wales" the parser returns
    geographic_coverage ["Wales"] and the cleaned term "" (the matched
    region synonym is removed); re-parsing the cleaned term yields empty
    geographic_coverage, so the filters differ and idempotence fails. -/
theorem c3_counterexample :
    (parse_query "wales").2.geographic_coverage = ["Wales"] ∧
    (parse_query "wales").1 = "" ∧
    (parse_query ((parse_query "wales").1)).2.geographic_coverage = [] :=
  ⟨rfl, rfl, rfl⟩

theorem foldl_fix {α} (f : String → α → String) (q : String) :
    ∀ l : List α, (∀ a ∈ l, f q a = q) → l.foldl f q = q
  | [], _ => rfl
  | a :: as, h => by
    rw [List.foldl_cons, h a (List.mem_cons_self _ _)]
    exact foldl_fix f q as (fun a2 ha2 => h a2 (List.mem_cons_of_mem _ ha2))

theorem regFold_fix (ql : String) :
    ∀ tbl : List (String × List String),
    (∀ p ∈ tbl, ∀ k ∈ p.2, pyIn k ql = false) →
    tbl.foldl (fun (acc : List String × List String) p =>
      match p.2.find? (fun k => pyIn k ql) with
      | some kw => (acc.1 ++ [pyTitle p.1], acc.2 ++ [kw])
      | none => acc) ([], []) = ([], [])
  | [], _ => rfl
  | p :: ps, h => by
    have hn : p.2.find? (fun k => pyIn k ql) = none :=
      List.find?_eq_none.mpr
        (fun k hk => by simp [h p (List.mem_cons_self _ _) k hk])
    rw [List.foldl_cons, hn]
    exact regFold_fix ql ps
      (fun p2 hp2 k hk => h p2 (List.mem_cons_of_mem _ hp2) k hk)

theorem pubFold_fix (ql : String) :
    ∀ tbl : List (String × List String),
    (∀ p ∈ tbl, pyIn p.1 ql = false) →
    tbl.foldl (fun (acc : List String × List String) p =>
      if pyIn p.1 ql then (acc.1 ++ p.2, acc.2 ++ [p.1]) else acc)
      ([], []) = ([], [])
  | [], _ => rfl
  | p :: ps, h => by
    rw [List.foldl_cons, if_neg (by simp [h p (List.mem_cons_self _ _)])]
    exact pubFold_fix ql ps (fun p2 hp2 => h p2 (List.mem_cons_of_mem _ hp2))

set_option maxHeartbeats 1000000 in
/-- Claim C3 (amended): parse_query is not idempotent in general — the
    matched region and publisher terms are removed from the cleaned term,
    so re-parsing the cleaned term can lose the geographic_coverage and
    publisher filters (query "wales" is a counterexample). Re-parsing is
    the identity exactly on queries that cleaning leaves unchanged, and
    cleaning leaves a query unchanged whenever no region synonym or
    publisher alias occurs in its lowercased text, every filler-word
    removal pass fixes it, and its whitespace is already normalized. -/
theorem c3_idempotent_on_fixed_points (q : String) :
    ((parse_query q).1 = q → parse_query ((parse_query q).1) = parse_query q) ∧
    ((∀ p ∈ REGION_KEYWORDS, ∀ k ∈ p.2, pyIn k (pyLower q) = false) →
     (∀ p ∈ PUBLISHER_ALIASES, pyIn p.1 (pyLower q) = false) →
     (∀ w ∈ fillerWords, subWordCI w q = q) →
     normWS q = q →
     (parse_query q).1 = q) := by
  constructor
  · intro h
    rw [h]
  · intro hreg hpub hfill hnorm
    have e1 : (parse_query q).1 = normWS (fillerWords.foldl
        (fun s t => subWordCI t s)
        (((REGION_KEYWORDS.foldl (fun (acc : List String × List String) p =>
            match p.2.find? (fun k => pyIn k (pyLower q)) with
            | some kw => (acc.1 ++ [pyTitle p.1], acc.2 ++ [kw])
            | none => acc) ([], [])).2 ++
          (PUBLISHER_ALIASES.foldl (fun (acc : List String × List String) p =>
            if pyIn p.1 (pyLower q) then (acc.1 ++ p.2, acc.2 ++ [p.1]) else acc)
            ([], [])).2).foldl (fun s t => subWordCI t s) q)) := rfl
    rw [e1, regFold_fix (pyLower q) REGION_KEYWORDS hreg,
        pubFold_fix (pyLower q) PUBLISHER_ALIASES hpub]
    show normWS (fillerWords.foldl (fun s t => subWordCI t s) q) = q
    rw [foldl_fix (fun s t => subWordCI t s) q fillerWords
      (fun w hw => hfill w hw)]
    exact hnorm

theorem c3_witness :
    (parse_query "hello").1 = "hello" ∧
    parse_query ((parse_query "hello").1) = parse_query "hello" := by
  have h := c3_idempotent_on_fixed_points "hello"
  have h2 := h.2 (by decide) (by decide) (by decide) (by decide)
  exact ⟨h2, h.1 h2⟩

/-! ### Claim C6 -/

def mkDs (i : String) : Dataset := { id := .str i }

def ds3 : List Dataset := [mkDs "1", mkDs "2", mkDs "3"]

def ds10 : List Dataset :=
  [mkDs "0", mkDs "1", mkDs "2", mkDs "3", mkDs "4",
   mkDs "5", mkDs "6", mkDs "7", mkDs "8", mkDs "9"]

/-- Claim C6 counterexample: a dataset search returning 3 results (< 5)
    for the query "test" (which has a non-empty condition keyword gap)
    produces 5 suggestions, none of which is condition-typed — the 7
    publisher suggestions fill the cap first; and with 10 results (≥ 5)
    suggestions are still produced (the condition branch has no
    below-5 guard). -/
theorem c6_counterexample :
    ((generateSuggestions "test" { datasets := ds3 }).all
      (fun s => s.stype ≠ "condition")) = true ∧
    (generateSuggestions "test" { datasets := ds3 }).length = 5 ∧
    ({ datasets := ds10 : SearchResult }).datasets.length = 10 ∧
    generateSuggestions "test" { datasets := ds10 } ≠ [] := by
  refine ⟨by decide, by decide, by decide, by decide⟩

theorem foldl_suffix_all {α β} (step : List α → β → List α) (P : α → Prop)
    (hstep : ∀ acc b, step acc b = acc ∨ ∃ x, P x ∧ step acc b = acc ++ [x]) :
    ∀ (l : List β) (acc : List α), (∀ a ∈ acc, P a) →
      ∀ a ∈ l.foldl step acc, P a := by
  intro l
  induction l with
  | nil =>
    intro acc hacc a ha
    exact hacc a ha
  | cons b bs ih =>
    intro acc hacc a ha
    rw [List.foldl_cons] at ha
    rcases hstep acc b with h | ⟨x, hx, h⟩
    · rw [h] at ha
      exact ih acc hacc a ha
    · rw [h] at ha
      refine ih (acc ++ [x]) ?_ a ha
      intro a2 ha2
      rcases List.mem_append.mp ha2 with h2 | h2
      · exact hacc a2 h2
      · rw [List.mem_singleton.mp h2]
        exact hx

/-- Claim C6 (amended): suggestions are capped at 5 and every suggestion
    is publisher- or condition-typed; publisher suggestions (static
    weight 0.8) are produced only when the dataset count is below 5,
    condition suggestions (static weight 0.6) whenever at least one
    dataset was found — regardless of the count; the returned list is
    publisher suggestions followed by condition suggestions, and
    publisher suggestions outweigh condition suggestions (0.6 < 0.8).
    In particular, with a generic query the 7 publisher aliases fill the
    5-element cap before any condition suggestion appears. -/
theorem c6_suggestions (query : String) (results : SearchResult) :
    (generateSuggestions query results).length ≤ 5 ∧
    (∀ s ∈ generateSuggestions query results,
      (s.stype = "publisher" ∧ s.score = 0.8 ∧ results.datasets.length < 5) ∨
      (s.stype = "condition" ∧ s.score = 0.6 ∧ results.datasets ≠ [])) ∧
    (∃ ps cs, generateSuggestions query results = ps ++ cs ∧
      (∀ s ∈ ps, s.stype = "publisher") ∧
      (∀ s ∈ cs, s.stype = "condition")) ∧
    ((0.6 : ℚ) < 0.8) := by
  have e1 : generateSuggestions query results =
      ((if results.datasets.length < 5 then
          PUBLISHER_ALIASES.foldl
            (fun (acc : List SearchSuggestion) (p : String × List String) =>
            if !(pyIn p.1 (pyLower query)) then
              acc ++ [{ text := query ++ " " ++ p.2.headD "",
                        stype := "publisher", score := 0.8,
                        metadata := [("publisher", .str (p.2.headD ""))] }]
            else acc) []
        else []) ++
        CONDITION_KEYWORDS.foldl
          (fun (acc : List SearchSuggestion) (p : String × List String) =>
          if !(pyIn p.1 (pyLower query)) &&
              !(p.2.any (fun k => pyIn k (pyLower query))) then
            if !results.datasets.isEmpty then
              acc ++ [{ text := query ++ " " ++ p.1, stype := "condition",
                        score := 0.6 }]
            else acc
          else acc) []).take 5 := rfl
  have hpub : ∀ s ∈ (if results.datasets.length < 5 then
      PUBLISHER_ALIASES.foldl
        (fun (acc : List SearchSuggestion) (p : String × List String) =>
        if !(pyIn p.1 (pyLower query)) then
          acc ++ [{ text := query ++ " " ++ p.2.headD "",
                    stype := "publisher", score := 0.8,
                    metadata := [("publisher", .str (p.2.headD ""))] }]
        else acc) []
      else []),
      s.stype = "publisher" ∧ s.score = 0.8 ∧ results.datasets.length < 5 := by
    by_cases hlen : results.datasets.length < 5
    · rw [if_pos hlen]
      refine foldl_suffix_all _ _ ?_ PUBLISHER_ALIASES [] (by simp)
      intro acc p
      by_cases hc : (!(pyIn p.1 (pyLower query))) = true
      · exact Or.inr ⟨_, ⟨rfl, rfl, hlen⟩, by rw [if_pos hc]⟩
      · exact Or.inl (by rw [if_neg hc])
    · rw [if_neg hlen]
      simp
  have hcond : ∀ s ∈ CONDITION_KEYWORDS.foldl
      (fun (acc : List SearchSuggestion) (p : String × List String) =>
      if !(pyIn p.1 (pyLower query)) &&
          !(p.2.any (fun k => pyIn k (pyLower query))) then
        if !results.datasets.isEmpty then
          acc ++ [{ text := query ++ " " ++ p.1, stype := "condition",
                    score := 0.6 }]
        else acc
      else acc) [],
      s.stype = "condition" ∧ s.score = 0.6 ∧ results.datasets ≠ [] := by
    refine foldl_suffix_all _ _ ?_ CONDITION_KEYWORDS [] (by simp)
    intro acc p
    by_cases h1 : (!(pyIn p.1 (pyLower query)) &&
        !(p.2.any (fun k => pyIn k (pyLower query)))) = true
    · by_cases h2 : (!results.datasets.isEmpty) = true
      · refine Or.inr ⟨_, ⟨rfl, rfl, ?_⟩, by rw [if_pos h1, if_pos h2]⟩
        simpa using h2
      · exact Or.inl (by rw [if_pos h1, if_neg h2])
    · exact Or.inl (by rw [if_neg h1])
  refine ⟨?_, ?_, ?_, by norm_num⟩
  · rw [e1, List.length_take]
    exact Nat.min_le_left _ _
  · intro s hs
    rw [e1] at hs
    have hs2 := List.mem_of_mem_take hs
    rcases List.mem_append.mp hs2 with h | h
    · exact Or.inl (hpub s h)
    · exact Or.inr (hcond s h)
  · rw [e1, List.take_append_eq_append_take]
    refine ⟨_, _, rfl, ?_, ?_⟩
    · intro s hs
      exact (hpub s (List.mem_of_mem_take hs)).1
    · intro s hs
      exact (hcond s (List.mem_of_mem_take hs)).1

theorem c6_witness :
    (generateSuggestions "test" { datasets := ds3 }).length ≤ 5 ∧
    ((0.6 : ℚ) < 0.8) := by
  have h := c6_suggestions "test" { datasets := ds3 }
  exact ⟨h.1, h.2.2.2⟩

/-! ### Claim C7: counting and stable-sort lemmas -/

section CountLemmas

variable {κ : Type} [BEq κ] [LawfulBEq κ] [DecidableEq κ]

/-- The count the insertion-ordered dict stores for a key (0 if absent). -/
def lookupCount (l : List (κ × Nat)) (k : κ) : Nat :=
  match l.find? (fun p => p.1 == k) with
  | some p => p.2
  | none => 0

theorem lookupCount_cons (a : κ × Nat) (l : List (κ × Nat)) (k : κ) :
    lookupCount (a :: l) k = if a.1 = k then a.2 else lookupCount l k := by
  by_cases h : a.1 = k
  · unfold lookupCount
    rw [List.find?_cons_of_pos _ (by simp [h])]
    simp [h]
  · unfold lookupCount
    rw [List.find?_cons_of_neg _ (by simp [h])]
    simp [h]

theorem bump_lookup (l : List (κ × Nat)) (k k2 : κ) :
    lookupCount (bumpCount l k) k2 =
      lookupCount l k2 + (if k = k2 then 1 else 0) := by
  induction l with
  | nil =>
    rw [show bumpCount ([] : List (κ × Nat)) k = [(k, 1)] from rfl]
    by_cases h : k = k2 <;>
      simp [lookupCount_cons, lookupCount, h]
  | cons a l ih =>
    obtain ⟨a1, an⟩ := a
    by_cases h : a1 = k
    · rw [show bumpCount ((a1, an) :: l) k = (a1, an + 1) :: l by
        simp [bumpCount, h]]
      by_cases h2 : k = k2
      · simp [lookupCount_cons, h, h2]
      · have h3 : a1 ≠ k2 := fun hh => h2 (h ▸ hh)
        simp [lookupCount_cons, h3, h2]
    · rw [show bumpCount ((a1, an) :: l) k = (a1, an) :: bumpCount l k by
        simp [bumpCount, h]]
      by_cases h3 : a1 = k2
      · have h4 : k ≠ k2 := fun hh => h (hh.symm ▸ h3)
        simp [lookupCount_cons, h3, h4]
      · simp [lookupCount_cons, h3, ih]

theorem fold_bump_lookup (xs : List κ) :
    ∀ (acc : List (κ × Nat)) (k : κ),
    lookupCount (List.foldl bumpCount acc xs) k =
      lookupCount acc k + xs.count k := by
  induction xs with
  | nil =>
    intro acc k
    simp
  | cons x xs ih =>
    intro acc k
    rw [List.foldl_cons, ih, bump_lookup, List.count_cons]
    by_cases h : x = k
    · simp [h]
      omega
    · simp [h]

theorem bump_fst_subset (k : κ) :
    ∀ (l : List (κ × Nat)), ∀ p ∈ bumpCount l k,
      p.1 ∈ l.map Prod.fst ∨ p.1 = k := by
  intro l
  induction l with
  | nil =>
    intro p hp
    rw [show bumpCount ([] : List (κ × Nat)) k = [(k, 1)] from rfl] at hp
    rw [List.mem_singleton.mp hp]
    simp
  | cons a l ih =>
    obtain ⟨a1, an⟩ := a
    intro p hp
    by_cases h : a1 = k
    · rw [show bumpCount ((a1, an) :: l) k = (a1, an + 1) :: l by
        simp [bumpCount, h]] at hp
      rcases List.mem_cons.mp hp with rfl | h2
      · simp
      · exact Or.inl (by
          simp only [List.map_cons, List.mem_cons]
          exact Or.inr (List.mem_map.mpr ⟨p, h2, rfl⟩))
    · rw [show bumpCount ((a1, an) :: l) k = (a1, an) :: bumpCount l k by
        simp [bumpCount, h]] at hp
      rcases List.mem_cons.mp hp with rfl | h2
      · simp
      · rcases ih p h2 with h3 | h3
        · exact Or.inl (by
            simp only [List.map_cons, List.mem_cons]
            exact Or.inr h3)
        · exact Or.inr h3

theorem bump_nodup (k : κ) :
    ∀ (l : List (κ × Nat)),
    l.Pairwise (fun a b => a.1 ≠ b.1) →
    (bumpCount l k).Pairwise (fun a b => a.1 ≠ b.1) := by
  intro l
  induction l with
  | nil =>
    intro _
    rw [show bumpCount ([] : List (κ × Nat)) k = [(k, 1)] from rfl]
    simp
  | cons a l ih =>
    obtain ⟨a1, an⟩ := a
    intro h
    rw [List.pairwise_cons] at h
    by_cases hk : a1 = k
    · rw [show bumpCount ((a1, an) :: l) k = (a1, an + 1) :: l by
        simp [bumpCount, hk]]
      exact List.pairwise_cons.mpr ⟨h.1, h.2⟩
    · rw [show bumpCount ((a1, an) :: l) k = (a1, an) :: bumpCount l k by
        simp [bumpCount, hk]]
      refine List.pairwise_cons.mpr ⟨?_, ih h.2⟩
      intro b hb
      rcases bump_fst_subset k l b hb with h3 | h3
      · obtain ⟨q, hq, hq2⟩ := List.mem_map.mp h3
        exact hq2 ▸ h.1 q hq
      · rw [h3]
        exact hk

theorem fold_bump_nodup (xs : List κ) :
    ∀ acc : List (κ × Nat),
    acc.Pairwise (fun a b => a.1 ≠ b.1) →
    (List.foldl bumpCount acc xs).Pairwise (fun a b => a.1 ≠ b.1) := by
  induction xs with
  | nil => exact fun acc h => h
  | cons x xs ih =>
    intro acc h
    rw [List.foldl_cons]
    exact ih _ (bump_nodup x acc h)

theorem lookup_of_nodup :
    ∀ (l : List (κ × Nat)), l.Pairwise (fun a b => a.1 ≠ b.1) →
    ∀ p ∈ l, lookupCount l p.1 = p.2 := by
  intro l
  induction l with
  | nil =>
    intro _ p hp
    cases hp
  | cons a l ih =>
    intro h p hp
    rw [List.pairwise_cons] at h
    rcases List.mem_cons.mp hp with rfl | h2
    · rw [lookupCount_cons, if_pos rfl]
    · rw [lookupCount_cons, if_neg (h.1 p h2), ih h.2 p h2]

theorem bump_ne_nil (l : List (κ × Nat)) (k : κ) : bumpCount l k ≠ [] := by
  cases l with
  | nil => simp [bumpCount]
  | cons a l =>
    obtain ⟨a1, an⟩ := a
    by_cases h : a1 = k <;> simp [bumpCount, h]

theorem fold_bump_ne_nil (xs : List κ) :
    ∀ acc : List (κ × Nat), acc ≠ [] → List.foldl bumpCount acc xs ≠ [] := by
  induction xs with
  | nil => exact fun acc h => h
  | cons x xs ih =>
    intro acc _
    rw [List.foldl_cons]
    exact ih _ (bump_ne_nil acc x)

theorem mem_insertDesc (x a : κ × Nat) :
    ∀ l : List (κ × Nat), a ∈ insertDesc x l ↔ a = x ∨ a ∈ l := by
  intro l
  induction l with
  | nil => simp [insertDesc]
  | cons y ys ih =>
    unfold insertDesc
    by_cases h : x.2 < y.2
    · rw [if_pos h]
      simp only [List.mem_cons, ih]
      tauto
    · rw [if_neg h]
      simp only [List.mem_cons, ih]

theorem mem_sortCountsDesc (a : κ × Nat) :
    ∀ l : List (κ × Nat), a ∈ sortCountsDesc l ↔ a ∈ l := by
  intro l
  induction l with
  | nil => simp [sortCountsDesc]
  | cons x xs ih =>
    unfold sortCountsDesc
    rw [mem_insertDesc]
    simp only [List.mem_cons, ih]

omit [BEq κ] [LawfulBEq κ] [DecidableEq κ] in
theorem chain_insertDesc (x : κ × Nat) :
    ∀ l : List (κ × Nat),
    List.Chain' (fun a b => b.2 ≤ a.2) l →
    List.Chain' (fun a b => b.2 ≤ a.2) (insertDesc x l) := by
  intro l
  induction l with
  | nil =>
    intro _
    simp [insertDesc]
  | cons y ys ih =>
    intro h
    rw [List.chain'_cons'] at h
    unfold insertDesc
    by_cases h2 : x.2 < y.2
    · rw [if_pos h2, List.chain'_cons']
      refine ⟨?_, ih h.2⟩
      intro b hb
      cases ys with
      | nil =>
        simp only [insertDesc, Option.mem_def, List.head?_cons,
          Option.some.injEq] at hb
        rw [← hb]
        exact Nat.le_of_lt h2
      | cons z zs =>
        unfold insertDesc at hb
        by_cases h3 : x.2 < z.2
        · rw [if_pos h3] at hb
          simp only [Option.mem_def, List.head?_cons, Option.some.injEq] at hb
          rw [← hb]
          exact h.1 z (by simp)
        · rw [if_neg h3] at hb
          simp only [Option.mem_def, List.head?_cons, Option.some.injEq] at hb
          rw [← hb]
          exact Nat.le_of_lt h2
    · rw [if_neg h2, List.chain'_cons']
      refine ⟨?_, List.chain'_cons'.mpr h⟩
      intro b hb
      simp only [Option.mem_def, List.head?_cons, Option.some.injEq] at hb
      rw [← hb]
      exact Nat.le_of_not_lt h2

omit [BEq κ] [LawfulBEq κ] [DecidableEq κ] in
theorem chain_sortCountsDesc :
    ∀ l : List (κ × Nat),
    List.Chain' (fun a b => b.2 ≤ a.2) (sortCountsDesc l) := by
  intro l
  induction l with
  | nil => simp [sortCountsDesc]
  | cons x xs ih => exact chain_insertDesc x _ ih

end CountLemmas

/-! ### Claim C7: the Publisher facet -/

/-- A dataset whose effective publisher name is `n` (via the team). -/
def dsPub (n : String) : Dataset := { team := some { name := .str n } }

/-- The C7 scenario: two NHS England datasets and one CPRD dataset. -/
def srC7 : SearchResult :=
  { datasets := [dsPub "NHS England", dsPub "NHS England", dsPub "CPRD"] }

/-- The facet list _generate_facets produces for the C7 scenario. -/
def facetsC7 : List SearchFacet :=
  [{ name := "Publisher", fieldName := "publisher",
     buckets := [{ key := .str "NHS England", count := 2 },
                 { key := .str "CPRD", count := 1 }] }]

/-- publisherCounts is a fold of bumpCount over the publisher names. -/
theorem publisherCounts_eq_fold (ds : List Dataset) :
    publisherCounts ds
      = List.foldl bumpCount [] (ds.map Dataset.publisher_name) :=
  (List.foldl_map _ _ _ _).symm

/-- C7: for every SearchResult whose facet generation succeeds, the
    Publisher facet is omitted exactly when the datasets list is empty;
    otherwise a Publisher facet is present whose buckets are the
    publisher-name counts sorted descending by count with the stable
    (first-seen) insertion order on ties, truncated to the top 10: at
    most 10 buckets, counts descending along the list, and each bucket's
    count is exactly the number of datasets bearing that publisher
    name. -/
theorem c7_publisher_facet (r : SearchResult) (fs : List SearchFacet)
    (hok : generateFacets r = Except.ok fs) :
    (r.datasets = [] → ∀ f ∈ fs, f.name ≠ "Publisher") ∧
    (r.datasets ≠ [] →
      ∃ f, f ∈ fs ∧ f.name = "Publisher" ∧ f.fieldName = "publisher" ∧
        f.buckets
          = ((sortCountsDesc (publisherCounts r.datasets)).take 10).map
              (fun p => { key := p.1, count := p.2 }) ∧
        f.buckets.length ≤ 10 ∧
        List.Chain' (fun a b => b.count ≤ a.count) f.buckets ∧
        ∀ b ∈ f.buckets,
          b.count = (r.datasets.map Dataset.publisher_name).count b.key) := by
  obtain ⟨sec, hsec, hfs⟩ :
      ∃ sec, sectorCountsE r.data_uses = Except.ok sec ∧
        fs = (if (publisherCounts r.datasets).isEmpty then []
              else [{ name := "Publisher", fieldName := "publisher",
                      buckets :=
                        ((sortCountsDesc (publisherCounts r.datasets)).take 10).map
                          (fun p => { key := p.1, count := p.2 }) }]) ++
             (if sec.isEmpty then []
              else [{ name := "Organisation Sector",
                      fieldName := "organisation_sector",
                      buckets := (sortCountsDesc sec).map
                        (fun p => { key := JValue.str p.1, count := p.2 }) }]) := by
    cases hsec : sectorCountsE r.data_uses with
    | error e => simp [generateFacets, hsec, exceptError_bind] at hok
    | ok sec =>
      refine ⟨sec, rfl, ?_⟩
      simp only [generateFacets, hsec, exceptOk_bind, pure, Except.pure,
        Except.ok.injEq] at hok
      exact hok.symm
  constructor
  · intro hds f hf
    rw [hfs, hds] at hf
    rw [show publisherCounts ([] : List Dataset) = [] from rfl] at hf
    simp only [List.isEmpty_nil, if_pos, List.nil_append] at hf
    by_cases hse : sec.isEmpty
    · rw [if_pos hse] at hf
      cases hf
    · rw [if_neg hse] at hf
      rw [List.mem_singleton.mp hf]
      simp
  · intro hds
    have hpcne : publisherCounts r.datasets ≠ [] := by
      obtain ⟨d, rest, hcons⟩ := List.exists_cons_of_ne_nil hds
      rw [publisherCounts_eq_fold, hcons]
      simp only [List.map_cons, List.foldl_cons]
      exact fold_bump_ne_nil _ _ (by simp [bumpCount])
    rw [hfs, if_neg (by simpa [List.isEmpty_iff] using hpcne)]
    refine ⟨_, List.mem_append_left _ (List.mem_singleton_self _),
      rfl, rfl, rfl, ?_, ?_, ?_⟩
    · rw [List.length_map, List.length_take]
      exact Nat.min_le_left _ _
    · rw [List.chain'_map]
      exact List.Chain'.take (chain_sortCountsDesc _) 10
    · intro b hb
      obtain ⟨p, hp, hpb⟩ := List.mem_map.mp hb
      have hp2 : p ∈ sortCountsDesc (publisherCounts r.datasets) :=
        List.mem_of_mem_take hp
      have hp3 : p ∈ publisherCounts r.datasets :=
        (mem_sortCountsDesc p _).mp hp2
      have hnd : (publisherCounts r.datasets).Pairwise
          (fun a b => a.1 ≠ b.1) := by
        rw [publisherCounts_eq_fold]
        exact fold_bump_nodup _ _ List.Pairwise.nil
      have hlk := lookup_of_nodup _ hnd p hp3
      have hcnt : lookupCount (publisherCounts r.datasets) p.1
          = (r.datasets.map Dataset.publisher_name).count p.1 := by
        rw [publisherCounts_eq_fold, fold_bump_lookup]
        simp [lookupCount]
      rw [← hpb]
      show p.2 = (r.datasets.map Dataset.publisher_name).count p.1
      rw [← hlk, hcnt]

/-- C7 witness: facet generation on the scenario of two NHS England
    datasets and one CPRD dataset succeeds with exactly the Publisher
    facet whose buckets are [("NHS England", 2), ("CPRD", 1)], and the
    theorem's conclusion is instantiated there. -/
theorem c7_witness :
    generateFacets srC7 = Except.ok facetsC7 ∧
    ((srC7.datasets = [] → ∀ f ∈ facetsC7, f.name ≠ "Publisher") ∧
     (srC7.datasets ≠ [] →
       ∃ f, f ∈ facetsC7 ∧ f.name = "Publisher" ∧ f.fieldName = "publisher" ∧
         f.buckets
           = ((sortCountsDesc (publisherCounts srC7.datasets)).take 10).map
               (fun p => { key := p.1, count := p.2 }) ∧
         f.buckets.length ≤ 10 ∧
         List.Chain' (fun a b => b.count ≤ a.count) f.buckets ∧
         ∀ b ∈ f.buckets,
           b.count = (srC7.datasets.map Dataset.publisher_name).count b.key)) :=
  ⟨rfl, c7_publisher_facet srC7 facetsC7 rfl⟩

/-! ### Claim C9: JSON export shape and round-trip -/

/-- A successful mapM over Except relates inputs and outputs pointwise. -/
theorem mapM_ok_forall {α β : Type} (f : α → Except PyErr β) :
    ∀ (l : List α) (ys : List β), l.mapM f = Except.ok ys →
      List.Forall₂ (fun x y => f x = Except.ok y) l ys := by
  intro l
  induction l with
  | nil =>
    intro ys h
    rw [List.mapM_nil] at h
    simp only [pure, Except.pure, Except.ok.injEq] at h
    rw [← h]
    exact List.Forall₂.nil
  | cons x l ih =>
    intro ys h
    rw [List.mapM_cons] at h
    cases hx : f x with
    | error e =>
      rw [hx] at h
      simp only [exceptError_bind] at h
      exact Except.noConfusion h
    | ok y =>
      rw [hx] at h
      simp only [exceptOk_bind] at h
      cases hl : l.mapM f with
      | error e =>
        rw [hl] at h
        simp only [exceptError_bind] at h
        exact Except.noConfusion h
      | ok ys2 =>
        rw [hl] at h
        simp only [exceptOk_bind, pure, Except.pure, Except.ok.injEq] at h
        rw [← h]
        exact List.Forall₂.cons hx (ih ys2 hl)

/-- A SearchResult holding one tool and nothing else. -/
def srC9 : SearchResult := { tools := [{}] }

/-- Claim C9 counterexample: the export of a SearchResult containing one
    tool is an object with arrays only for datasets, data uses and
    publications — no array for the tool (or collection) resource types —
    while its total_count still counts the tool. -/
theorem c9_counterexample :
    exportResultsJson srC9 = Except.ok (JValue.obj
      [("datasets", .arr []), ("data_uses", .arr []),
       ("publications", .arr []), ("total_count", .num 1)]) ∧
    srC9.tools ≠ [] ∧ srC9.total_results = 1 :=
  ⟨rfl, by decide, rfl⟩

/-- C9 (amended): a successful export is a single object with exactly the
    keys datasets, data_uses, publications and total_count in that order;
    total_count is the original total_results (which also counts the
    unexported tools and collections); each publication entry is the full
    untruncated field map; each dataset entry carries the dataset's id,
    resolved title, publisher name, full abstract, counts and gateway
    URL; each data-use entry carries the full field map with the sector
    serialized from the enum value or null.  Re-parsing the dumped JSON
    is the identity on the modeled object, so the re-parsed total_count
    equals the original total_results. -/
theorem c9_export_shape (r : SearchResult) (j : JValue)
    (hok : exportResultsJson r = Except.ok j) :
    ∃ dsArr duArr,
      j = JValue.obj
        [("datasets", .arr dsArr), ("data_uses", .arr duArr),
         ("publications", .arr (r.publications.map exportPublicationEntry)),
         ("total_count", .num r.total_results)] ∧
      List.Forall₂ (fun ds v => ∃ t, ds.title = Except.ok t ∧
        v = JValue.obj [("id", ds.id), ("title", t),
          ("publisher", ds.publisher_name), ("abstract", ds.abstract),
          ("publications_count", ds.publications_count),
          ("data_uses_count", ds.durs_count),
          ("gateway_url", .str ds.gateway_url)]) r.datasets dsArr ∧
      List.Forall₂ (fun dur v => ∃ sec,
        v = JValue.obj [("id", dur.id), ("project_title", dur.project_title),
          ("organisation", dur.organisation_name), ("sector", sec),
          ("lay_summary", dur.lay_summary),
          ("approval_date", dur.latest_approval_date),
          ("gateway_url", .str dur.gateway_url)] ∧
        ((dur.organisation_sector.pyTruthy = false ∧ sec = JValue.null) ∨
         ∃ s, sectorValue dur.organisation_sector = Except.ok s ∧
           sec = JValue.str s)) r.data_uses duArr := by
  unfold exportResultsJson at hok
  cases hds : r.datasets.mapM exportDatasetEntry with
  | error e =>
    rw [hds] at hok
    simp only [exceptError_bind] at hok
    exact Except.noConfusion hok
  | ok dsArr =>
    rw [hds] at hok
    simp only [exceptOk_bind] at hok
    cases hdu : r.data_uses.mapM exportDataUseEntry with
    | error e =>
      rw [hdu] at hok
      simp only [exceptError_bind] at hok
      exact Except.noConfusion hok
    | ok duArr =>
      rw [hdu] at hok
      simp only [exceptOk_bind, pure, Except.pure, Except.ok.injEq] at hok
      refine ⟨dsArr, duArr, hok.symm, ?_, ?_⟩
      · refine List.Forall₂.imp ?_ (mapM_ok_forall _ _ _ hds)
        intro ds v hx
        unfold exportDatasetEntry at hx
        cases ht : ds.title with
        | error e =>
          rw [ht] at hx
          simp only [exceptError_bind] at hx
          exact Except.noConfusion hx
        | ok t =>
          rw [ht] at hx
          simp only [exceptOk_bind, pure, Except.pure, Except.ok.injEq] at hx
          exact ⟨t, rfl, hx.symm⟩
      · refine List.Forall₂.imp ?_ (mapM_ok_forall _ _ _ hdu)
        intro dur v hx
        unfold exportDataUseEntry at hx
        cases hpt : dur.organisation_sector.pyTruthy with
        | false =>
          rw [if_neg (by simp [hpt])] at hx
          simp only [pure, Except.pure, exceptOk_bind, Except.ok.injEq] at hx
          exact ⟨JValue.null, hx.symm, Or.inl ⟨rfl, rfl⟩⟩
        | true =>
          rw [if_pos (by simp [hpt])] at hx
          cases hsv : sectorValue dur.organisation_sector with
          | error e =>
            rw [hsv] at hx
            simp only [exceptError_bind] at hx
            exact Except.noConfusion hx
          | ok s =>
            rw [hsv] at hx
            simp only [exceptOk_bind, pure, Except.pure,
              Except.ok.injEq] at hx
            exact ⟨JValue.str s, hx.symm, Or.inr ⟨s, rfl, rfl⟩⟩

/-- A SearchResult with one dataset, data use, publication and tool. -/
def srC9w : SearchResult :=
  { datasets := [dsPub "NHS England"],
    data_uses := [{}], publications := [{}], tools := [{}] }

/-- The object srC9w exports to. -/
def jC9w : JValue := JValue.obj
  [("datasets", .arr [JValue.obj
      [("id", .str ""), ("title", .str "Untitled"),
       ("publisher", .str "NHS England"), ("abstract", .str ""),
       ("publications_count", .num 0), ("data_uses_count", .num 0),
       ("gateway_url", .str "https://www.healthdatagateway.org/dataset/")]]),
   ("data_uses", .arr [JValue.obj
      [("id", .str ""), ("project_title", .str ""),
       ("organisation", .null), ("sector", .null),
       ("lay_summary", .null), ("approval_date", .null),
       ("gateway_url", .str "https://www.healthdatagateway.org/datause/")]]),
   ("publications", .arr [JValue.obj
      [("id", .str ""), ("title", .str ""), ("authors", .null),
       ("year", .null), ("doi", .null),
       ("gateway_url",
        .str "https://www.healthdatagateway.org/publication/")]]),
   ("total_count", .num 4)]

/-- C9 witness: the export-shape theorem instantiated on a SearchResult
    with one of each resource type; the export succeeds, equals the
    explicit object jC9w (no tools or collections arrays, total_count 4),
    and satisfies the stated shape. -/
theorem c9_witness :
    exportResultsJson srC9w = Except.ok jC9w ∧
    (∃ dsArr duArr,
      jC9w = JValue.obj
        [("datasets", .arr dsArr), ("data_uses", .arr duArr),
         ("publications",
          .arr (srC9w.publications.map exportPublicationEntry)),
         ("total_count", .num srC9w.total_results)] ∧
      List.Forall₂ (fun ds v => ∃ t, ds.title = Except.ok t ∧
        v = JValue.obj [("id", ds.id), ("title", t),
          ("publisher", ds.publisher_name), ("abstract", ds.abstract),
          ("publications_count", ds.publications_count),
          ("data_uses_count", ds.durs_count),
          ("gateway_url", .str ds.gateway_url)]) srC9w.datasets dsArr ∧
      List.Forall₂ (fun dur v => ∃ sec,
        v = JValue.obj [("id", dur.id), ("project_title", dur.project_title),
          ("organisation", dur.organisation_name), ("sector", sec),
          ("lay_summary", dur.lay_summary),
          ("approval_date", dur.latest_approval_date),
          ("gateway_url", .str dur.gateway_url)] ∧
        ((dur.organisation_sector.pyTruthy = false ∧ sec = JValue.null) ∨
         ∃ s, sectorValue dur.organisation_sector = Except.ok s ∧
           sec = JValue.str s)) srC9w.data_uses duArr) :=
  ⟨rfl, c9_export_shape srC9w jC9w rfl⟩
